import Mathlib

/-!
ELAN SMBus touchpad driver: report decoding and device lifecycle

A shallow embedding of `VoodooSMBus/ELANTouchpadDriver.cpp`.

* Bytes are natural numbers reduced modulo 256 when they are read from a buffer.
* `unsigned int` arithmetic is arithmetic modulo `2^32`, `uint64_t` arithmetic
  is arithmetic modulo `2^64`, `int` values are integers.
* The bus, the clock and the event sinks are explicit: the bus is an oracle
  answering from the history of operations, the clock is an argument, and the
  events handed to the multitouch interface and to the trackpoint device are
  appended to a list.
* `IOSleep` and the log calls only delay or print; they are left out.
-/

namespace ELAN

/-! ## Constants of the driver header -/

/-- The constants of `ELANTouchpadDriver.hpp` used by the source file. The header
gives their values; the functions below take them as a parameter. -/
structure Header where
  ETP_MAX_PRESSURE : Nat
  ETP_FWIDTH_REDUCE : Nat
  ETP_RETRY_COUNT : Int
  ETP_REPORT_ID : Nat
  ETP_TP_REPORT_ID : Nat
  ETP_REPORT_ID_OFFSET : Nat
  ETP_TOUCH_INFO_OFFSET : Nat
  ETP_FINGER_DATA_OFFSET : Nat
  ETP_HOVER_INFO_OFFSET : Nat
  ETP_MAX_REPORT_LEN : Nat
  ETP_SMBUS_REPORT_LEN : Int
  ETP_SMBUS_REPORT_OFFSET : Nat
  ETP_SMBUS_HELLOPACKET_CMD : Nat
  ETP_SMBUS_ENABLE_TP : Nat
  ETP_SMBUS_IAP_CMD : Nat
  ETP_SMBUS_PACKET_QUERY : Nat
  ETP_SMBUS_SLEEP_CMD : Nat
  ETP_ENABLE_ABS : Nat
  maxaftertyping : Nat

/-- Modelled from the spec: `ETP_MAX_FINGERS` is defined in the header, which is
not part of the source file. The touch-info byte carries one validity bit per
slot at bit `3 + i`, and the spec names the slots 0 to 4. -/
def ETP_MAX_FINGERS : Nat := 5

/-- Modelled from the spec: `ETP_FINGER_DATA_LEN` is defined in the header; the
spec gives a 5-byte record per finger. -/
def ETP_FINGER_DATA_LEN : Nat := 5

/-- Modelled from the spec: `ETP_SMBUS_HELLOPACKET_LEN` is defined in the header;
the spec gives a hello packet of 5 bytes, and `check` has five initialisers. -/
def ETP_SMBUS_HELLOPACKET_LEN : Nat := 5

/-- The errno value `EIO`. -/
def EIO : Int := 5

/-- The errno value `ENXIO`. -/
def ENXIO : Int := 6

/-- One instance of the header constants, with the values of the Linux
`elan_i2c` driver this file is based on and the retry count and quiet window
of the reference (5 attempts, 500 ms). It is used to evaluate the definitions
on concrete inputs. -/
def refHeader : Header where
  ETP_MAX_PRESSURE := 255
  ETP_FWIDTH_REDUCE := 90
  ETP_RETRY_COUNT := 5
  ETP_REPORT_ID := 0x5D
  ETP_TP_REPORT_ID := 0x5E
  ETP_REPORT_ID_OFFSET := 2
  ETP_TOUCH_INFO_OFFSET := 3
  ETP_FINGER_DATA_OFFSET := 4
  ETP_HOVER_INFO_OFFSET := 30
  ETP_MAX_REPORT_LEN := 34
  ETP_SMBUS_REPORT_LEN := 32
  ETP_SMBUS_REPORT_OFFSET := 2
  ETP_SMBUS_HELLOPACKET_CMD := 0x7
  ETP_SMBUS_ENABLE_TP := 0x20
  ETP_SMBUS_IAP_CMD := 0x00
  ETP_SMBUS_PACKET_QUERY := 0xA8
  ETP_SMBUS_SLEEP_CMD := 0x21
  ETP_ENABLE_ABS := 0x0001
  maxaftertyping := 500000000

/-! ## Buffers and machine arithmetic -/

/-- Byte `i` of a buffer (`buf[i]` for a `u8 *`). -/
def rd (buf : List Nat) (i : Nat) : Nat := buf.getD i 0 % 256

/-- Subtraction of `unsigned int` values. -/
def sub32 (a b : Nat) : Nat := (a % 2 ^ 32 + 2 ^ 32 - b % 2 ^ 32) % 2 ^ 32

/-- Multiplication of `unsigned int` values. -/
def mul32 (a b : Nat) : Nat := (a * b) % 2 ^ 32

/-- Conversion of an `int` to `unsigned int`. -/
def toU32 (a : Int) : Nat := (a % 2 ^ 32).toNat

/-- Subtraction of `uint64_t` values. -/
def sub64 (a b : Nat) : Nat := (a % 2 ^ 64 + 2 ^ 64 - b % 2 ^ 64) % 2 ^ 64

/-! ## Data model -/

/-- Modelled from the spec: the value cells of `VoodooI2CDigitiserTransducer`
(`coordinates.x`, `tip_switch`, `physical_button`, with `update` and
`last.value`) are declared outside the source file. Following the FingerSlot of
the spec, a cell holds the last reported value. Timestamps are not modelled. -/
structure TimeTrackedValue where
  value : Nat
deriving DecidableEq, Repr

/-- Modelled from the spec: `update(value, timestamp)` reports a new value for
the cell. -/
def TimeTrackedValue.update (_v : TimeTrackedValue) (new_value : Nat) : TimeTrackedValue :=
  { value := new_value }

/-- Modelled from the spec: `last.value`, the value the cell reported last. -/
def TimeTrackedValue.last_value (v : TimeTrackedValue) : Nat := v.value

/-- The transducer type; the driver only creates finger transducers. -/
inductive DigitiserTransducerType where
  | kDigitiserTransducerFinger
deriving DecidableEq, Repr

/-- The fields of `VoodooI2CDigitiserTransducer` the driver writes. -/
structure Transducer where
  id : Nat
  secondary_id : Nat
  logical_max_x : Nat
  logical_max_y : Nat
  physical_button : TimeTrackedValue
  type : DigitiserTransducerType
  is_valid : Bool
  x : TimeTrackedValue
  y : TimeTrackedValue
  tip_switch : TimeTrackedValue
deriving DecidableEq, Repr

/-- The device parameters `elan_tp_data`. -/
structure elan_tp_data where
  max_x : Nat
  max_y : Nat
  width_x : Nat
  width_y : Nat
  pressure_adjustment : Int
  x_res : Nat
  y_res : Nat
deriving DecidableEq, Repr

/-- The geometry fields of the multitouch interface. -/
structure MultitouchInterface where
  physical_max_x : Nat
  physical_max_y : Nat
  logical_max_x : Nat
  logical_max_y : Nat
deriving DecidableEq, Repr

/-- What the driver hands to its event sinks: `handleInterruptReport` of the
multitouch interface, `updateScrollwheel` and `updateRelativePointer` of the
trackpoint device. -/
inductive Event where
  | handleInterruptReport (contact_count : Nat) (transducers : List Transducer)
  | updateScrollwheel (a b c : Int)
  | updateRelativePointer (dx dy buttons : Int)
deriving DecidableEq, Repr

/-! ## Absolute reports -/

/-- The locals `pos_x` of `reportContact`, from the record at `fd`. -/
def pos_x (packet : List Nat) (fd : Nat) : Nat :=
  (((rd packet fd) &&& 0xf0) <<< 4) ||| rd packet (fd + 1)

/-- The local `pos_y` of `reportContact`, from the record at `fd`. -/
def pos_y (packet : List Nat) (fd : Nat) : Nat :=
  (((rd packet fd) &&& 0x0f) <<< 8) ||| rd packet (fd + 2)

/-- The locals `area_x`, `area_y`, `major`, `minor` of `reportContact`. They are
computed and not stored. -/
def contactArea (c : Header) (data : elan_tp_data) (packet : List Nat) (fd : Nat) :
    Nat × Nat × Nat × Nat :=
  let mk_x := rd packet (fd + 3) &&& 0x0f
  let mk_y := rd packet (fd + 3) >>> 4
  let area_x := mul32 mk_x (sub32 data.width_x c.ETP_FWIDTH_REDUCE)
  let area_y := mul32 mk_y (sub32 data.width_y c.ETP_FWIDTH_REDUCE)
  (area_x, area_y, max area_x area_y, min area_x area_y)

/-- The local `scaled_pressure` of `reportContact`: the pressure byte plus
`pressure_adjustment`, in `unsigned int`, then clamped. -/
def scaledPressure (c : Header) (data : elan_tp_data) (pressure : Nat) : Nat :=
  let scaled_pressure := (pressure + toU32 data.pressure_adjustment) % 2 ^ 32
  if scaled_pressure > c.ETP_MAX_PRESSURE then c.ETP_MAX_PRESSURE else scaled_pressure

/-- The test `pos_x > data->max_x || pos_y > data->max_y` of `reportContact`. -/
def overMax (data : elan_tp_data) (packet : List Nat) (fd : Nat) : Bool :=
  decide (pos_x packet fd > data.max_x) || decide (pos_y packet fd > data.max_y)

/-- `ELANTouchpadDriver::reportContact`; `finger_data` is `packet + fd`. -/
def reportContact (data : elan_tp_data) (transducer : Transducer) (contact_valid : Bool)
    (packet : List Nat) (fd : Nat) : Transducer :=
  if contact_valid then
    if overMax data packet fd then
      transducer
    else
      { transducer with
        x := transducer.x.update (pos_x packet fd)
        y := transducer.y.update (sub32 transducer.logical_max_y (pos_y packet fd))
        tip_switch := transducer.tip_switch.update 1 }
  else
    { transducer with
      x := transducer.x.update transducer.x.last_value
      y := transducer.y.update transducer.y.last_value
      tip_switch := transducer.tip_switch.update 0 }

/-- The test `tp_info & (1U << (3 + i))` of `reportAbsolute`. -/
def contactValid (tp_info : Nat) (i : Nat) : Bool :=
  decide (tp_info &&& (1 <<< (3 + i)) ≠ 0)

/-- The assignments `reportAbsolute` makes to a transducer before it calls
`reportContact`. -/
def prepareTransducer (mt : MultitouchInterface) (tp_info : Nat) (i : Nat)
    (transducer : Transducer) : Transducer :=
  { transducer with
    id := i
    secondary_id := i
    logical_max_x := mt.logical_max_x
    logical_max_y := mt.logical_max_y
    physical_button := transducer.physical_button.update (tp_info &&& (1 <<< 0))
    type := DigitiserTransducerType.kDigitiserTransducerFinger
    is_valid := contactValid tp_info i }

/-- One pass of the body of the loop of `reportAbsolute` on slot `i`. -/
def slotStep (data : elan_tp_data) (mt : MultitouchInterface) (packet : List Nat)
    (tp_info : Nat) (i : Nat) (fd : Nat) (transducer : Transducer) : Transducer :=
  reportContact data (prepareTransducer mt tp_info i transducer) (contactValid tp_info i) packet fd

/-- The loop `for (i = 0; i < ETP_MAX_FINGERS; i++)` of `reportAbsolute`, with `n`
passes left: `fd` is the read cursor `finger_data` and `count` is
`event.contact_count`. -/
def reportAbsoluteLoop (data : elan_tp_data) (mt : MultitouchInterface) (packet : List Nat)
    (tp_info : Nat) : Nat → Nat → Nat → Nat → List Transducer → List Transducer × Nat
  | 0, _, _, count, transducers => (transducers, count)
  | n + 1, i, fd, count, transducers =>
    let transducers1 := transducers.modify (slotStep data mt packet tp_info i fd) i
    if contactValid tp_info i then
      reportAbsoluteLoop data mt packet tp_info n (i + 1) (fd + ETP_FINGER_DATA_LEN)
        (count + 1) transducers1
    else
      reportAbsoluteLoop data mt packet tp_info n (i + 1) fd count transducers1

/-- The number of slots below `i` whose validity bit is set in `tp_info`. -/
def validBelow (tp_info : Nat) (i : Nat) : Nat :=
  (List.range i).countP (contactValid tp_info)

/-- The position in the packet of the record that the `k`-th valid slot
reads (`k` counted from 0): the records follow each other from
`ETP_FINGER_DATA_OFFSET`. -/
def recordAt (c : Header) (k : Nat) : Nat :=
  c.ETP_FINGER_DATA_OFFSET + ETP_FINGER_DATA_LEN * k

/-! ## Bus transport -/

/-- One operation on the bus, as the driver issues it. -/
inductive BusOp where
  | readBlockData (command : Nat)
  | writeByte (command : Nat)
  | writeBlockData (command : Nat) (length : Nat) (values : List Nat)
deriving DecidableEq, Repr

/-- Modelled from the spec: the bus transport `VoodooSMBusDeviceNub` is not part
of the source file. The spec gives `readBlock(command)`, which returns a length
and data or a negative error code, and `writeByte(command)` and
`writeBlock(command, bytes)`, which return a status; all three may fail. Here the
device answers from the history of operations, which is recorded in `log`,
oldest operation first. -/
structure VoodooSMBusDeviceNub where
  readReply : List BusOp → Nat → Int × List Nat
  writeByteReply : List BusOp → Nat → Int
  writeBlockReply : List BusOp → Nat → Nat → List Nat → Int
  log : List BusOp

/-- Modelled from the spec: `readBlockData(command, values)` returns the length
and the bytes read. -/
def VoodooSMBusDeviceNub.readBlockData (nub : VoodooSMBusDeviceNub) (command : Nat) :
    (Int × List Nat) × VoodooSMBusDeviceNub :=
  (nub.readReply nub.log command, { nub with log := nub.log ++ [BusOp.readBlockData command] })

/-- Modelled from the spec: `writeByte(command)` returns a status. -/
def VoodooSMBusDeviceNub.writeByte (nub : VoodooSMBusDeviceNub) (command : Nat) :
    Int × VoodooSMBusDeviceNub :=
  (nub.writeByteReply nub.log command, { nub with log := nub.log ++ [BusOp.writeByte command] })

/-- Modelled from the spec: `writeBlockData(command, length, values)` returns a
status. -/
def VoodooSMBusDeviceNub.writeBlockData (nub : VoodooSMBusDeviceNub) (command : Nat)
    (length : Nat) (values : List Nat) : Int × VoodooSMBusDeviceNub :=
  (nub.writeBlockReply nub.log command length values,
    { nub with log := nub.log ++ [BusOp.writeBlockData command length values] })

/-- Whether a bus operation is a write. -/
def BusOp.isWrite : BusOp → Bool
  | BusOp.readBlockData _ => false
  | BusOp.writeByte _ => true
  | BusOp.writeBlockData _ _ _ => true

/-- The write operations of a bus log, in order. -/
def writesOf (log : List BusOp) : List BusOp := log.filter BusOp.isWrite

/-- The number of block reads of command `command` in a bus log. -/
def readsOf (command : Nat) (log : List BusOp) : Nat :=
  log.count (BusOp.readBlockData command)

/-! ## Driver state -/

/-- The members of `ELANTouchpadDriver` the source file reads and writes,
together with the events handed to the sinks so far (oldest first). -/
structure Driver where
  data : elan_tp_data
  mt_interface : MultitouchInterface
  transducers : List Transducer
  awake : Bool
  trackpointScrolling : Bool
  ignoreall : Bool
  keytime : Nat
  device_nub : VoodooSMBusDeviceNub
  events : List Event

/-- A transducer as `VoodooI2CDigitiserTransducer::transducer(type, NULL)` makes
it, with every field cleared. -/
def newTransducer : Transducer where
  id := 0
  secondary_id := 0
  logical_max_x := 0
  logical_max_y := 0
  physical_button := { value := 0 }
  type := DigitiserTransducerType.kDigitiserTransducerFinger
  is_valid := false
  x := { value := 0 }
  y := { value := 0 }
  tip_switch := { value := 0 }

/-- `ELANTouchpadDriver::init`: `ETP_MAX_FINGERS` transducers are created, the
device is awake and the trackpoint is not scrolling. The members `init` leaves
untouched are taken from `d`. -/
def init (d : Driver) : Driver :=
  { d with
    transducers := List.replicate ETP_MAX_FINGERS newTransducer
    awake := true
    trackpointScrolling := false }

/-- `ELANTouchpadDriver::convertResolution`; `(char)val` is a signed byte and
the division truncates. -/
def convertResolution (val : Nat) : Nat :=
  let v : Int := if val % 256 < 128 then (val % 256 : Nat) else ((val % 256 : Nat) : Int) - 256
  toU32 (Int.tdiv ((v * 10 + 790) * 10) 254)

/-- `ELANTouchpadDriver::setDeviceParameters`. -/
def setDeviceParameters (d : Driver) : Driver :=
  let hw_x_res := 1
  let hw_y_res := 1
  let x_traces := 1
  let y_traces := 1
  let max_x := 3052
  let max_y := 1888
  let data : elan_tp_data :=
    { max_x := max_x
      max_y := max_y
      width_x := max_x / x_traces
      width_y := max_y / y_traces
      pressure_adjustment := 25
      x_res := convertResolution hw_x_res
      y_res := convertResolution hw_y_res }
  { d with
    data := data
    mt_interface :=
      { physical_max_x := mul32 data.max_x 10 / data.x_res
        physical_max_y := mul32 data.max_y 10 / data.y_res
        logical_max_x := data.max_x
        logical_max_y := data.max_y } }

/-- `ELANTouchpadDriver::reportAbsolute`. The byte `hover_info` is read and not
used. -/
def reportAbsolute (c : Header) (d : Driver) (packet : List Nat) : Driver :=
  let tp_info := rd packet c.ETP_TOUCH_INFO_OFFSET
  let r := reportAbsoluteLoop d.data d.mt_interface packet tp_info ETP_MAX_FINGERS 0
    c.ETP_FINGER_DATA_OFFSET 0 d.transducers
  { d with
    transducers := r.1
    events := d.events ++ [Event.handleInterruptReport r.2 r.1] }

/-- The touch-info byte `tp_info` of an absolute report. -/
def touchInfo (c : Header) (packet : List Nat) : Nat := rd packet c.ETP_TOUCH_INFO_OFFSET

/-- The number of bits set among bits 3 to 7 of a byte. -/
def bits3to7 (b : Nat) : Nat :=
  (List.range 5).countP (fun i => b.testBit (3 + i))

/-- The driver after a run of absolute reports, oldest first. -/
def reportAbsoluteAll (c : Header) (d : Driver) (packets : List (List Nat)) : Driver :=
  packets.foldl (reportAbsolute c) d

/-! ## Trackpoint reports -/

/-- Byte `k` of the trackpoint payload: `packet[k]` for
`packet = &report[ETP_REPORT_ID_OFFSET + 1]`. -/
def payload (c : Header) (report : List Nat) (k : Nat) : Nat :=
  rd report (c.ETP_REPORT_ID_OFFSET + 1 + k)

/-- The local `btn_middle` of `reportTrackpoint`. -/
def btnMiddle (c : Header) (report : List Nat) : Nat :=
  payload c report 0 &&& 0x04

/-- The local `button` of `reportTrackpoint`. -/
def tpButton (c : Header) (report : List Nat) : Nat :=
  (payload c report 0 &&& 0x01) ||| (payload c report 0 &&& 0x02) ||| btnMiddle c report

/-- Whether the payload carries motion: `(packet[3] & 0x0F) == 0x06`. -/
def tpHasMotion (c : Header) (report : List Nat) : Bool :=
  decide (payload c report 3 &&& 0x0F = 0x06)

/-- The local `x` of `reportTrackpoint`. -/
def tpX (c : Header) (report : List Nat) : Int :=
  if tpHasMotion c report then
    (payload c report 4 : Int) - (((payload c report 1 ^^^ 0x80) <<< 1 : Nat) : Int)
  else 0

/-- The local `y` of `reportTrackpoint`. -/
def tpY (c : Header) (report : List Nat) : Int :=
  if tpHasMotion c report then
    (((payload c report 2 ^^^ 0x80) <<< 1 : Nat) : Int) - (payload c report 5 : Int)
  else 0

/-- The value of `trackpointScrolling` after the two assignments of
`reportTrackpoint`. -/
def nextScrolling (c : Header) (scrolling : Bool) (report : List Nat) : Bool :=
  let s1 := if btnMiddle c report = 4 ∧ tpX c report ≠ 0 ∧ tpY c report ≠ 0 then true else scrolling
  if btnMiddle c report = 0 then false else s1

/-- The event `reportTrackpoint` emits when it leaves the flag at `scrolling`. -/
def tpEvent (c : Header) (scrolling : Bool) (report : List Nat) : Event :=
  if scrolling then
    Event.updateScrollwheel (-(tpY c report)) (-(tpX c report)) 0
  else
    Event.updateRelativePointer (tpX c report) (tpY c report) (tpButton c report)

/-- `ELANTouchpadDriver::reportTrackpoint`. -/
def reportTrackpoint (c : Header) (d : Driver) (report : List Nat) : Driver :=
  let scrolling := nextScrolling c d.trackpointScrolling report
  { d with
    trackpointScrolling := scrolling
    events := d.events ++ [tpEvent c scrolling report] }

/-- The driver after a run of trackpoint reports, oldest first. -/
def reportTrackpointAll (c : Header) (d : Driver) (reports : List (List Nat)) : Driver :=
  reports.foldl (reportTrackpoint c) d

/-- The scroll event of a report: `updateScrollwheel(-y, -x, 0)`. -/
def scrollEvent (c : Header) (report : List Nat) : Event :=
  Event.updateScrollwheel (-(tpY c report)) (-(tpX c report)) 0

/-- The relative-pointer event of a report: `updateRelativePointer(x, y, button)`. -/
def pointerEvent (c : Header) (report : List Nat) : Event :=
  Event.updateRelativePointer (tpX c report) (tpY c report) (tpButton c report)

/-! ## Initialisation -/

/-- The comparison `memcmp(values, check, ETP_SMBUS_HELLOPACKET_LEN)` of the
first bytes of the zero-initialised buffer `values`, after the read stored
`reply` in it, with five bytes `0x55`: true when they differ. -/
def helloMismatch (reply : List Nat) : Bool :=
  (List.range ETP_SMBUS_HELLOPACKET_LEN).any (fun k => decide (rd reply k ≠ 0x55))

/-- `ELANTouchpadDriver::setMode`; `mode` is a `u8`. -/
def setMode (c : Header) (nub : VoodooSMBusDeviceNub) (mode : Nat) : Int × VoodooSMBusDeviceNub :=
  let cmd := [0x00, 0x07, 0x00, mode % 256]
  nub.writeBlockData c.ETP_SMBUS_IAP_CMD 4 cmd

/-- `ELANTouchpadDriver::initialize` (`elan_smbus_initialize`): the result is the
returned `int` and the bus afterwards. -/
def smbusInitialize (c : Header) (nub : VoodooSMBusDeviceNub) : Int × VoodooSMBusDeviceNub :=
  let r := nub.readBlockData c.ETP_SMBUS_HELLOPACKET_CMD
  let len := r.1.1
  let values := r.1.2
  if len ≠ (ETP_SMBUS_HELLOPACKET_LEN : Int) then
    (if len < 0 then len else - EIO, r.2)
  else if helloMismatch values then
    (- ENXIO, r.2)
  else
    let w := r.2.writeByte c.ETP_SMBUS_ENABLE_TP
    if w.1 ≠ 0 then
      (w.1, w.2)
    else
      let m := setMode c w.2 c.ETP_ENABLE_ABS
      if m.1 ≠ 0 then (m.1, m.2) else (0, m.2)

/-- The loop `do ... while (--repeat > 0)` of `tryInitialize`, entered with the
counter at `repeat_`. -/
def tryInitializeLoop (c : Header) (repeat_ : Int) (nub : VoodooSMBusDeviceNub) :
    Int × VoodooSMBusDeviceNub :=
  let r := smbusInitialize c nub
  if r.1 = 0 then
    (0, r.2)
  else if repeat_ - 1 > 0 then
    tryInitializeLoop c (repeat_ - 1) r.2
  else
    (r.1, r.2)
termination_by repeat_.toNat
decreasing_by omega

/-- `ELANTouchpadDriver::tryInitialize`. -/
def tryInitialize (c : Header) (nub : VoodooSMBusDeviceNub) : Int × VoodooSMBusDeviceNub :=
  tryInitializeLoop c c.ETP_RETRY_COUNT nub

/-- The bus after `k` calls of `initialize` in a row. -/
def attempts (c : Header) : Nat → VoodooSMBusDeviceNub → VoodooSMBusDeviceNub
  | 0, nub => nub
  | k + 1, nub => attempts c k (smbusInitialize c nub).2

/-! ## Host notifications, power states and keyboard messages -/

/-- The buffer `report` after `readBlockData` stored `values` at
`&report[ETP_SMBUS_REPORT_OFFSET]`; `stack` is the content of the uninitialised
local array before the read. -/
def storeReport (c : Header) (stack : List Nat) (values : List Nat) : List Nat :=
  (List.range c.ETP_MAX_REPORT_LEN).map (fun i =>
    if c.ETP_SMBUS_REPORT_OFFSET ≤ i ∧ i - c.ETP_SMBUS_REPORT_OFFSET < values.length then
      rd values (i - c.ETP_SMBUS_REPORT_OFFSET)
    else rd stack i)

/-- `ELANTouchpadDriver::getReport` (`elan_smbus_get_report`): the returned `int`,
the buffer and the bus afterwards. -/
def getReport (c : Header) (nub : VoodooSMBusDeviceNub) (stack : List Nat) :
    Int × List Nat × VoodooSMBusDeviceNub :=
  let r := nub.readBlockData c.ETP_SMBUS_PACKET_QUERY
  let len := r.1.1
  let report := storeReport c stack r.1.2
  if len < 0 then
    (len, report, r.2)
  else if len ≠ c.ETP_SMBUS_REPORT_LEN then
    (- EIO, report, r.2)
  else
    (0, report, r.2)

/-- The test `timestamp_ns - keytime < maxaftertyping` of `handleHostNotify`, in
`uint64_t`. -/
def afterTyping (c : Header) (keytime : Nat) (timestamp_ns : Nat) : Bool :=
  decide (sub64 timestamp_ns keytime < c.maxaftertyping % 2 ^ 64)

/-- The `switch` of `handleHostNotify` on the report identifier. -/
def dispatchReport (c : Header) (d : Driver) (report : List Nat) : Driver :=
  if rd report c.ETP_REPORT_ID_OFFSET = c.ETP_REPORT_ID then
    reportAbsolute c d report
  else if rd report c.ETP_REPORT_ID_OFFSET = c.ETP_TP_REPORT_ID then
    reportTrackpoint c d report
  else
    d

/-- `ELANTouchpadDriver::handleHostNotify`; `timestamp_ns` is the uptime the
clock returns and `stack` the prior content of the local buffer. -/
def handleHostNotify (c : Header) (d : Driver) (timestamp_ns : Nat) (stack : List Nat) : Driver :=
  let g := getReport c d.device_nub stack
  let d1 := { d with device_nub := g.2.2 }
  if g.1 ≠ 0 then
    d1
  else if d.ignoreall then
    d1
  else if afterTyping c d.keytime timestamp_ns then
    d1
  else
    dispatchReport c d1 g.2.1

/-- The buffer `report` of `handleHostNotify` after `getReport`. -/
def readReport (c : Header) (d : Driver) (stack : List Nat) : List Nat :=
  (getReport c d.device_nub stack).2.1

/-- The driver of `handleHostNotify` after `getReport`: only the bus has
changed. -/
def afterRead (c : Header) (d : Driver) (stack : List Nat) : Driver :=
  { d with device_nub := (getReport c d.device_nub stack).2.2 }

/-- The decoder `handleHostNotify` calls for a report whose identifier is
`ETP_REPORT_ID` or `ETP_TP_REPORT_ID`. -/
def decodeReport (c : Header) (d : Driver) (report : List Nat) : Driver :=
  if rd report c.ETP_REPORT_ID_OFFSET = c.ETP_REPORT_ID then reportAbsolute c d report
  else reportTrackpoint c d report

/-- `ELANTouchpadDriver::sendSleepCommand`; the status of the write is dropped. -/
def sendSleepCommand (c : Header) (d : Driver) : Driver :=
  { d with device_nub := (d.device_nub.writeByte c.ETP_SMBUS_SLEEP_CMD).2 }

/-- `ELANTouchpadDriver::setPowerState` for a call addressed to this device;
`powerOff` is `whichState == kIOPMPowerOff`. -/
def setPowerState (c : Header) (d : Driver) (powerOff : Bool) : Driver :=
  if powerOff then
    if d.awake then sendSleepCommand c { d with awake := false } else d
  else
    if !d.awake then
      { d with device_nub := (tryInitialize c d.device_nub).2, awake := true }
    else d

/-- The messages `ELANTouchpadDriver::message` tells apart, with the value its
argument points to. -/
inductive Message where
  | kKeyboardGetTouchStatus
  | kKeyboardSetTouchStatus (enable : Bool)
  | kKeyboardKeyPressTime (time : Nat)
  | other
deriving DecidableEq, Repr

/-- `ELANTouchpadDriver::message`: the driver afterwards and the value written to
`*pResult`, if any. -/
def message (d : Driver) : Message → Driver × Option Bool
  | Message.kKeyboardGetTouchStatus => (d, some (!d.ignoreall))
  | Message.kKeyboardSetTouchStatus enable =>
    (if enable = d.ignoreall then { d with ignoreall := !enable } else d, none)
  | Message.kKeyboardKeyPressTime time => ({ d with keytime := time % 2 ^ 64 }, none)
  | Message.other => (d, none)

/-! ## Evaluation on concrete inputs -/

/-- A bus on which every read returns the hello packet and every write
succeeds. -/
def helloBus : VoodooSMBusDeviceNub where
  readReply := fun _ _ => (5, [0x55, 0x55, 0x55, 0x55, 0x55])
  writeByteReply := fun _ _ => 0
  writeBlockReply := fun _ _ _ _ => 0
  log := []

/-- The driver after `init`, on the bus `helloBus`; the members `init` does not
set are cleared. -/
def initDriver : Driver :=
  init
    { data := ⟨0, 0, 0, 0, 0, 0, 0⟩
      mt_interface := ⟨0, 0, 0, 0⟩
      transducers := []
      awake := false
      trackpointScrolling := false
      ignoreall := false
      keytime := 0
      device_nub := helloBus
      events := [] }

/-- The driver after `init` and `setDeviceParameters`, on the bus `helloBus`. -/
def startDriver : Driver :=
  setDeviceParameters initDriver

/-- An absolute report whose touch-info byte selects slots 0 and 2; the first
record encodes `pos_x = 100`, `pos_y = 200`, the second `pos_x = 308`,
`pos_y = 598`. -/
def samplePacket : List Nat :=
  [0, 0, 0x5D, 0x28, 0x00, 100, 200, 0x11, 30, 0x12, 0x34, 0x56, 0x22, 40]

/-- An absolute report whose touch-info byte selects slot 0 only; its record
encodes `pos_x = 4095`, `pos_y = 200`. -/
def overPacket : List Nat :=
  [0, 0, 0x5D, 0x08, 0xF0, 0xFF, 200, 0x11, 30]

/-- An absolute report with no validity bit set. -/
def liftPacket : List Nat :=
  [0, 0, 0x5D, 0x00]

/-- What an event shows of its slots: the count, and for each transducer
`is_valid`, `x`, `y` and the tip switch. -/
def eventSummary : Event → Nat × List (Bool × Nat × Nat × Nat)
  | Event.handleInterruptReport n ts =>
    (n, ts.map (fun t => (t.is_valid, t.x.value, t.y.value, t.tip_switch.value)))
  | _ => (0, [])

/-- A trackpoint report with the middle button held, motion present, and
deltas decoding to `x = 5`, `y = 3`. -/
def scrollReport : List Nat :=
  [0, 0, 0x5E, 0x04, 0x80, 0x82, 0x06, 5, 1]

/-- A trackpoint report with the middle button held and no motion. -/
def holdReport : List Nat :=
  [0, 0, 0x5E, 0x04, 0x80, 0x80, 0x00, 0, 0]

/-- A bus whose hello read returns five bytes, the third of which is not
`0x55`; every write succeeds. -/
def badHelloBus : VoodooSMBusDeviceNub where
  readReply := fun _ _ => (5, [0x55, 0x55, 0x54, 0x55, 0x55])
  writeByteReply := fun _ _ => 0
  writeBlockReply := fun _ _ _ _ => 0
  log := []

/-- A bus whose hello read returns three bytes; every write succeeds. -/
def shortHelloBus : VoodooSMBusDeviceNub where
  readReply := fun _ _ => (3, [0x55, 0x55, 0x55])
  writeByteReply := fun _ _ => 0
  writeBlockReply := fun _ _ _ _ => 0
  log := []

/-- A bus whose first `n` hello reads fail with `-16` and whose later reads
return the hello packet; every write succeeds. -/
def lateHelloBus (n : Nat) : VoodooSMBusDeviceNub where
  readReply := fun log _ => if log.length < n then (-16, []) else (5, [0x55, 0x55, 0x55, 0x55, 0x55])
  writeByteReply := fun _ _ => 0
  writeBlockReply := fun _ _ _ _ => 0
  log := []

/-- A bus whose every read returns 32 bytes starting with `values`; every
write succeeds. -/
def reportBus (values : List Nat) : VoodooSMBusDeviceNub where
  readReply := fun _ _ => (32, values ++ List.replicate (32 - values.length) 0)
  writeByteReply := fun _ _ => 0
  writeBlockReply := fun _ _ _ _ => 0
  log := []

/-- The started driver on another bus. -/
def driverOn (nub : VoodooSMBusDeviceNub) : Driver :=
  { startDriver with device_nub := nub }

/-- A bus whose every read returns three bytes; every write succeeds. -/
def shortReportBus : VoodooSMBusDeviceNub where
  readReply := fun _ _ => (3, [0x5D, 0x28, 0x00])
  writeByteReply := fun _ _ => 0
  writeBlockReply := fun _ _ _ _ => 0
  log := []

/-- A bus that answers the hello read and fails every write with `-5`. -/
def deafBus : VoodooSMBusDeviceNub where
  readReply := fun _ _ => (5, [0x55, 0x55, 0x55, 0x55, 0x55])
  writeByteReply := fun _ _ => -5
  writeBlockReply := fun _ _ _ _ => -5
  log := []

/-- The started driver after it went to sleep. -/
def asleepDriver : Driver :=
  { startDriver with awake := false }

/-- The sample report with the record of slot 0 out of range
(`pos_x = 4095`); the rest is as in `samplePacket`. -/
def overSamplePacket : List Nat :=
  [0, 0, 0x5D, 0x28, 0xF0, 0xFF, 200, 0x11, 30, 0x12, 0x34, 0x56, 0x22, 40]

/-- The sample report with other width and pressure bytes in both records. -/
def heavySamplePacket : List Nat :=
  [0, 0, 0x5D, 0x28, 0x00, 100, 200, 0xFF, 99, 0x12, 0x34, 0x56, 0x00, 1]

/-- A trackpoint report with motion present whose bytes decode to `x = -510`,
`y = 510`. -/
def farReport : List Nat :=
  [0, 0, 0x5E, 0x00, 0x7F, 0x7F, 0x06, 0, 0]

/-- A trackpoint report with the left button held and no motion sentinel. -/
def stillReport : List Nat :=
  [0, 0, 0x5E, 0x01, 0x12, 0x34, 0x00, 7, 9]

/-! ## The loop of `reportAbsolute` -/

theorem validBelow_succ (tp_info i : Nat) :
    validBelow tp_info (i + 1) = validBelow tp_info i + (if contactValid tp_info i then 1 else 0) := by
  simp [validBelow, List.range_succ, List.countP_append, List.countP_cons]

theorem validBelow_mono (tp_info : Nat) {i j : Nat} (h : i ≤ j) :
    validBelow tp_info i ≤ validBelow tp_info j := by
  induction j with
  | zero =>
    have : i = 0 := by omega
    subst this
    exact Nat.le_refl _
  | succ k ih =>
    rcases Nat.lt_or_ge i (k + 1) with hlt | hge
    · have := ih (by omega)
      rw [validBelow_succ]
      omega
    · have : i = k + 1 := by omega
      subst this
      exact Nat.le_refl _

/-- The loop of `reportAbsolute` in closed form: the count grows by the number
of valid slots it passes, and slot `j` is stepped once, with the cursor advanced
by one record for each valid slot before it. -/
theorem reportAbsoluteLoop_spec (data : elan_tp_data) (mt : MultitouchInterface)
    (packet : List Nat) (tp_info : Nat) :
    ∀ (n i fd count : Nat) (ts : List Transducer),
      (reportAbsoluteLoop data mt packet tp_info n i fd count ts).2
          = count + (validBelow tp_info (i + n) - validBelow tp_info i) ∧
      ∀ j, (reportAbsoluteLoop data mt packet tp_info n i fd count ts).1[j]?
          = if i ≤ j ∧ j < i + n then
              (ts[j]?).map (slotStep data mt packet tp_info j
                (fd + ETP_FINGER_DATA_LEN * (validBelow tp_info j - validBelow tp_info i)))
            else ts[j]? := by
  intro n
  induction n with
  | zero =>
    intro i fd count ts
    refine ⟨by simp [reportAbsoluteLoop], fun j => ?_⟩
    have : ¬ (i ≤ j ∧ j < i) := by omega
    simp [reportAbsoluteLoop, this]
  | succ n ih =>
    intro i fd count ts
    have hs := validBelow_succ tp_info i
    have hm := validBelow_mono tp_info (show i + 1 ≤ i + 1 + n by omega)
    by_cases hv : contactValid tp_info i = true
    · obtain ⟨ihc, iht⟩ := ih (i + 1) (fd + ETP_FINGER_DATA_LEN) (count + 1)
        (ts.modify (slotStep data mt packet tp_info i fd) i)
      simp only [hv, if_true] at hs
      constructor
      · simp only [reportAbsoluteLoop, hv, if_true]
        rw [ihc]
        have : i + (n + 1) = i + 1 + n := by omega
        rw [this]
        omega
      · intro j
        simp only [reportAbsoluteLoop, hv, if_true]
        rw [iht j]
        rcases Nat.lt_trichotomy j i with hlt | heq | hgt
        · have h1 : ¬ (i + 1 ≤ j ∧ j < i + 1 + n) := by omega
          have h2 : ¬ (i ≤ j ∧ j < i + (n + 1)) := by omega
          rw [if_neg h1, if_neg h2, List.getElem?_modify_ne _ _ (by omega)]
        · subst heq
          have h1 : ¬ (j + 1 ≤ j ∧ j < j + 1 + n) := by omega
          have h2 : j ≤ j ∧ j < j + (n + 1) := by omega
          rw [if_neg h1, if_pos h2, List.getElem?_modify_eq]
          simp
        · by_cases hr : j < i + (n + 1)
          · have h1 : i + 1 ≤ j ∧ j < i + 1 + n := by omega
            have h2 : i ≤ j ∧ j < i + (n + 1) := by omega
            have hj := validBelow_mono tp_info (show i + 1 ≤ j by omega)
            rw [if_pos h1, if_pos h2, List.getElem?_modify_ne _ _ (by omega)]
            have : fd + ETP_FINGER_DATA_LEN
                + ETP_FINGER_DATA_LEN * (validBelow tp_info j - validBelow tp_info (i + 1))
                = fd + ETP_FINGER_DATA_LEN * (validBelow tp_info j - validBelow tp_info i) := by
              have : validBelow tp_info j - validBelow tp_info i
                  = (validBelow tp_info j - validBelow tp_info (i + 1)) + 1 := by omega
              rw [this, Nat.mul_add]
              omega
            rw [this]
          · have h1 : ¬ (i + 1 ≤ j ∧ j < i + 1 + n) := by omega
            have h2 : ¬ (i ≤ j ∧ j < i + (n + 1)) := by omega
            rw [if_neg h1, if_neg h2, List.getElem?_modify_ne _ _ (by omega)]
    · have hv' : contactValid tp_info i = false := by simpa using hv
      obtain ⟨ihc, iht⟩ := ih (i + 1) fd count
        (ts.modify (slotStep data mt packet tp_info i fd) i)
      simp only [hv', Bool.false_eq_true, if_false, Nat.add_zero] at hs
      constructor
      · simp only [reportAbsoluteLoop, hv', Bool.false_eq_true, if_false]
        rw [ihc]
        have : i + (n + 1) = i + 1 + n := by omega
        rw [this]
        omega
      · intro j
        simp only [reportAbsoluteLoop, hv', Bool.false_eq_true, if_false]
        rw [iht j]
        rcases Nat.lt_trichotomy j i with hlt | heq | hgt
        · have h1 : ¬ (i + 1 ≤ j ∧ j < i + 1 + n) := by omega
          have h2 : ¬ (i ≤ j ∧ j < i + (n + 1)) := by omega
          rw [if_neg h1, if_neg h2, List.getElem?_modify_ne _ _ (by omega)]
        · subst heq
          have h1 : ¬ (j + 1 ≤ j ∧ j < j + 1 + n) := by omega
          have h2 : j ≤ j ∧ j < j + (n + 1) := by omega
          rw [if_neg h1, if_pos h2, List.getElem?_modify_eq]
          simp
        · by_cases hr : j < i + (n + 1)
          · have h1 : i + 1 ≤ j ∧ j < i + 1 + n := by omega
            have h2 : i ≤ j ∧ j < i + (n + 1) := by omega
            rw [if_pos h1, if_pos h2, List.getElem?_modify_ne _ _ (by omega), hs]
          · have h1 : ¬ (i + 1 ≤ j ∧ j < i + 1 + n) := by omega
            have h2 : ¬ (i ≤ j ∧ j < i + (n + 1)) := by omega
            rw [if_neg h1, if_neg h2, List.getElem?_modify_ne _ _ (by omega)]

theorem contactValid_eq_testBit (tp_info i : Nat) :
    contactValid tp_info i = tp_info.testBit (3 + i) := by
  have hb : ∀ j, (tp_info &&& 2 ^ (3 + i)).testBit j
      = (tp_info.testBit j && decide (3 + i = j)) := by
    intro j
    rw [Nat.testBit_and, Nat.testBit_two_pow]
  cases h : tp_info.testBit (3 + i) with
  | true =>
    have h1 : (tp_info &&& 2 ^ (3 + i)).testBit (3 + i) = true := by
      rw [hb, h]
      simp
    have h2 : tp_info &&& 2 ^ (3 + i) ≠ 0 := by
      intro h0
      rw [h0, Nat.zero_testBit] at h1
      exact Bool.noConfusion h1
    simp [contactValid, Nat.one_shiftLeft, h2]
  | false =>
    have h2 : tp_info &&& 2 ^ (3 + i) = 0 := by
      apply Nat.eq_of_testBit_eq
      intro j
      rw [hb, Nat.zero_testBit]
      by_cases hj : 3 + i = j
      · subst hj
        simp [h]
      · simp [hj]
    simp [contactValid, Nat.one_shiftLeft, h2]

theorem validBelow_eq_bits3to7 (tp_info : Nat) :
    validBelow tp_info ETP_MAX_FINGERS = bits3to7 tp_info := by
  unfold validBelow bits3to7 ETP_MAX_FINGERS
  congr 1
  funext i
  exact contactValid_eq_testBit tp_info i

/-- After `reportAbsolute`, slot `j` has been stepped once with the cursor at the
record of rank `validBelow j`. -/
theorem reportAbsolute_slot (c : Header) (d : Driver) (packet : List Nat) (j : Nat)
    (hj : j < ETP_MAX_FINGERS) :
    (reportAbsolute c d packet).transducers[j]?
      = (d.transducers[j]?).map (slotStep d.data d.mt_interface packet (touchInfo c packet) j
          (recordAt c (validBelow (touchInfo c packet) j))) := by
  have h := (reportAbsoluteLoop_spec d.data d.mt_interface packet (touchInfo c packet)
    ETP_MAX_FINGERS 0 c.ETP_FINGER_DATA_OFFSET 0 d.transducers).2 j
  have h0 : validBelow (touchInfo c packet) 0 = 0 := by simp [validBelow]
  have hr : 0 ≤ j ∧ j < 0 + ETP_MAX_FINGERS := by omega
  rw [if_pos hr, h0, Nat.sub_zero] at h
  exact h

/-- The event `reportAbsolute` emits carries the number of valid slots and the
transducers as the loop left them. -/
theorem reportAbsolute_events (c : Header) (d : Driver) (packet : List Nat) :
    (reportAbsolute c d packet).events
      = d.events ++ [Event.handleInterruptReport (validBelow (touchInfo c packet) ETP_MAX_FINGERS)
          (reportAbsolute c d packet).transducers] := by
  have h := (reportAbsoluteLoop_spec d.data d.mt_interface packet (touchInfo c packet)
    ETP_MAX_FINGERS 0 c.ETP_FINGER_DATA_OFFSET 0 d.transducers).1
  have h0 : validBelow (touchInfo c packet) 0 = 0 := by simp [validBelow]
  rw [h0, Nat.sub_zero, Nat.zero_add, Nat.zero_add] at h
  show d.events ++ [Event.handleInterruptReport _ _] = _
  rw [← h]
  rfl

theorem reportAbsolute_length (c : Header) (d : Driver) (packet : List Nat) :
    (reportAbsolute c d packet).transducers.length = d.transducers.length := by
  have key : ∀ (n i fd count : Nat) (ts : List Transducer),
      (reportAbsoluteLoop d.data d.mt_interface packet (touchInfo c packet) n i fd count ts).1.length
        = ts.length := by
    intro n
    induction n with
    | zero => intro i fd count ts; rfl
    | succ n ih =>
      intro i fd count ts
      unfold reportAbsoluteLoop
      split <;> simp [ih]
  exact key _ _ _ _ _

/-! ## Single slots -/

theorem overMax_eq_false {data : elan_tp_data} {packet : List Nat} {fd : Nat}
    (hx : pos_x packet fd ≤ data.max_x) (hy : pos_y packet fd ≤ data.max_y) :
    overMax data packet fd = false := by
  simp only [overMax, Bool.or_eq_false_iff, decide_eq_false_iff_not]
  omega

theorem overMax_eq_true {data : elan_tp_data} {packet : List Nat} {fd : Nat}
    (h : pos_x packet fd > data.max_x ∨ pos_y packet fd > data.max_y) :
    overMax data packet fd = true := by
  simp only [overMax, Bool.or_eq_true, decide_eq_true_eq]
  exact h

/-- A valid slot whose record is in range is stored. -/
theorem slotStep_stored (data : elan_tp_data) (mt : MultitouchInterface) (packet : List Nat)
    (tp_info i fd : Nat) (t : Transducer) (hv : contactValid tp_info i = true)
    (ho : overMax data packet fd = false) :
    slotStep data mt packet tp_info i fd t =
      { prepareTransducer mt tp_info i t with
        x := { value := pos_x packet fd }
        y := { value := sub32 mt.logical_max_y (pos_y packet fd) }
        tip_switch := { value := 1 } } := by
  simp [slotStep, reportContact, hv, ho, TimeTrackedValue.update, prepareTransducer]

/-- A valid slot whose record is out of range is left as the loop prepared it. -/
theorem slotStep_rejected (data : elan_tp_data) (mt : MultitouchInterface) (packet : List Nat)
    (tp_info i fd : Nat) (t : Transducer) (hv : contactValid tp_info i = true)
    (ho : overMax data packet fd = true) :
    slotStep data mt packet tp_info i fd t = prepareTransducer mt tp_info i t := by
  simp [slotStep, reportContact, hv, ho]

/-- An invalid slot reports its last position and a cleared tip switch. -/
theorem slotStep_invalid (data : elan_tp_data) (mt : MultitouchInterface) (packet : List Nat)
    (tp_info i fd : Nat) (t : Transducer) (hv : contactValid tp_info i = false) :
    slotStep data mt packet tp_info i fd t =
      { prepareTransducer mt tp_info i t with
        x := t.x
        y := t.y
        tip_switch := { value := 0 } } := by
  simp [slotStep, reportContact, hv, TimeTrackedValue.update, TimeTrackedValue.last_value,
    prepareTransducer]

theorem getElem?_of_length {d : Driver} {i : Nat} (hlen : d.transducers.length = ETP_MAX_FINGERS)
    (hi : i < ETP_MAX_FINGERS) : ∃ t, d.transducers[i]? = some t := by
  have h : i < d.transducers.length := by omega
  exact ⟨d.transducers[i], List.getElem?_eq_getElem h⟩

/-- An invalid slot after one report: position kept, tip switch cleared. -/
theorem reportAbsolute_invalid_step (c : Header) (d : Driver) (packet : List Nat) (i : Nat)
    (t : Transducer) (hi : i < ETP_MAX_FINGERS) (ht : d.transducers[i]? = some t)
    (hclear : (touchInfo c packet).testBit (3 + i) = false) :
    ∃ t1, (reportAbsolute c d packet).transducers[i]? = some t1 ∧ t1.x = t.x ∧ t1.y = t.y ∧
      t1.tip_switch.value = 0 ∧ t1.is_valid = false := by
  have hv : contactValid (touchInfo c packet) i = false := by
    rw [contactValid_eq_testBit]
    exact hclear
  refine ⟨slotStep d.data d.mt_interface packet (touchInfo c packet) i
      (recordAt c (validBelow (touchInfo c packet) i)) t, ?_, ?_⟩
  · rw [reportAbsolute_slot c d packet i hi, ht, Option.map_some']
  · rw [slotStep_invalid _ _ _ _ _ _ _ hv]
    simp [prepareTransducer, hv]

/-! ## Claims -/

/-- C1: for an absolute report whose valid contacts all decode to in-range
coordinates, `reportAbsolute` emits one event whose `contact_count` is the number
of bits set among bits 3 to 7 of the touch-info byte; a valid slot `i` ends with
`x = pos_x` and `y = logical_max_y - pos_y` (the `unsigned int` difference)
decoded from the record of rank `k`, where `k` is the number of valid slots below
`i`, with its tip switch set; an invalid slot keeps its prior coordinates. -/
theorem reportAbsolute_in_range (c : Header) (d : Driver) (packet : List Nat)
    (hlen : d.transducers.length = ETP_MAX_FINGERS)
    (hin : ∀ i, i < ETP_MAX_FINGERS → (touchInfo c packet).testBit (3 + i) = true →
      pos_x packet (recordAt c (validBelow (touchInfo c packet) i)) ≤ d.data.max_x ∧
      pos_y packet (recordAt c (validBelow (touchInfo c packet) i)) ≤ d.data.max_y) :
    (reportAbsolute c d packet).events
        = d.events ++ [Event.handleInterruptReport (bits3to7 (touchInfo c packet))
            (reportAbsolute c d packet).transducers] ∧
    ∀ i, i < ETP_MAX_FINGERS → ∃ t t1,
      d.transducers[i]? = some t ∧ (reportAbsolute c d packet).transducers[i]? = some t1 ∧
      ((touchInfo c packet).testBit (3 + i) = true →
        t1.is_valid = true ∧ t1.tip_switch.value = 1 ∧
        t1.x.value = pos_x packet (recordAt c (validBelow (touchInfo c packet) i)) ∧
        t1.y.value = sub32 d.mt_interface.logical_max_y
          (pos_y packet (recordAt c (validBelow (touchInfo c packet) i)))) ∧
      ((touchInfo c packet).testBit (3 + i) = false →
        t1.is_valid = false ∧ t1.x = t.x ∧ t1.y = t.y) := by
  constructor
  · rw [reportAbsolute_events, validBelow_eq_bits3to7]
  · intro i hi
    obtain ⟨t, ht⟩ := getElem?_of_length hlen hi
    refine ⟨t, slotStep d.data d.mt_interface packet (touchInfo c packet) i
      (recordAt c (validBelow (touchInfo c packet) i)) t, ht, ?_, ?_, ?_⟩
    · rw [reportAbsolute_slot c d packet i hi, ht, Option.map_some']
    · intro hb
      have hv : contactValid (touchInfo c packet) i = true := by
        rw [contactValid_eq_testBit]
        exact hb
      obtain ⟨hx, hy⟩ := hin i hi hb
      rw [slotStep_stored _ _ _ _ _ _ _ hv (overMax_eq_false hx hy)]
      simp [prepareTransducer, hv]
    · intro hb
      have hv : contactValid (touchInfo c packet) i = false := by
        rw [contactValid_eq_testBit]
        exact hb
      rw [slotStep_invalid _ _ _ _ _ _ _ hv]
      simp [prepareTransducer, hv]

/-- Witness of C1: the theorem applied to the started driver and the sample
report, whose mask selects slots 0 and 2. -/
theorem reportAbsolute_in_range_witness :
    startDriver.transducers.length = ETP_MAX_FINGERS ∧
    (∀ i, i < ETP_MAX_FINGERS → (touchInfo refHeader samplePacket).testBit (3 + i) = true →
      pos_x samplePacket (recordAt refHeader (validBelow (touchInfo refHeader samplePacket) i))
        ≤ startDriver.data.max_x ∧
      pos_y samplePacket (recordAt refHeader (validBelow (touchInfo refHeader samplePacket) i))
        ≤ startDriver.data.max_y) ∧
    ((reportAbsolute refHeader startDriver samplePacket).events
        = startDriver.events ++ [Event.handleInterruptReport (bits3to7 (touchInfo refHeader samplePacket))
            (reportAbsolute refHeader startDriver samplePacket).transducers] ∧
    ∀ i, i < ETP_MAX_FINGERS → ∃ t t1,
      startDriver.transducers[i]? = some t ∧
      (reportAbsolute refHeader startDriver samplePacket).transducers[i]? = some t1 ∧
      ((touchInfo refHeader samplePacket).testBit (3 + i) = true →
        t1.is_valid = true ∧ t1.tip_switch.value = 1 ∧
        t1.x.value = pos_x samplePacket
          (recordAt refHeader (validBelow (touchInfo refHeader samplePacket) i)) ∧
        t1.y.value = sub32 startDriver.mt_interface.logical_max_y
          (pos_y samplePacket
            (recordAt refHeader (validBelow (touchInfo refHeader samplePacket) i)))) ∧
      ((touchInfo refHeader samplePacket).testBit (3 + i) = false →
        t1.is_valid = false ∧ t1.x = t.x ∧ t1.y = t.y)) :=
  have hlen : startDriver.transducers.length = ETP_MAX_FINGERS := by decide
  have hin : ∀ i, i < ETP_MAX_FINGERS →
      (touchInfo refHeader samplePacket).testBit (3 + i) = true →
      pos_x samplePacket (recordAt refHeader (validBelow (touchInfo refHeader samplePacket) i))
        ≤ startDriver.data.max_x ∧
      pos_y samplePacket (recordAt refHeader (validBelow (touchInfo refHeader samplePacket) i))
        ≤ startDriver.data.max_y := by decide
  ⟨hlen, hin, reportAbsolute_in_range refHeader startDriver samplePacket hlen hin⟩

/-- The sample report evaluated: the mask selects slots 0 and 2, the
count is 2, slot 0 is at `(100, 1888 - 200)`, slot 2 at `(308, 1888 - 598)`, and
slots 1, 3 and 4 are invalid at their prior position `(0, 0)`. -/
theorem reportAbsolute_sample :
    startDriver.mt_interface.logical_max_y = 1888 ∧
    (reportAbsolute refHeader startDriver samplePacket).events.map eventSummary
      = [(2, [(true, 100, 1688, 1), (false, 0, 0, 0), (true, 308, 1290, 1),
              (false, 0, 0, 0), (false, 0, 0, 0)])] := by
  decide

/-- C2, as stated, fails: in `overPacket` the validity bit of slot 0 is set and
its record decodes to `pos_x = 4095 > max_x = 3052`, yet the emitted event has
`contact_count = 1` and slot 0 carries `is_valid = true`. -/
theorem overPacket_is_counted :
    (touchInfo refHeader overPacket).testBit (3 + 0) = true ∧
    pos_x overPacket (recordAt refHeader (validBelow (touchInfo refHeader overPacket) 0))
      > startDriver.data.max_x ∧
    (reportAbsolute refHeader startDriver overPacket).events.map eventSummary
      = [(1, [(true, 0, 0, 0), (false, 0, 0, 0), (false, 0, 0, 0), (false, 0, 0, 0),
              (false, 0, 0, 0)])] := by
  decide

/-- C2, amended: for a slot whose validity bit is set and whose record decodes to
`pos_x > max_x` or `pos_y > max_y`, the update is dropped: `x`, `y` and the tip
switch keep their prior values. The slot still carries `is_valid = true`, and
the `contact_count` of the emitted event is the number of validity bits set,
this slot included. -/
theorem reportAbsolute_over_max (c : Header) (d : Driver) (packet : List Nat) (i : Nat)
    (hlen : d.transducers.length = ETP_MAX_FINGERS) (hi : i < ETP_MAX_FINGERS)
    (hbit : (touchInfo c packet).testBit (3 + i) = true)
    (hover : pos_x packet (recordAt c (validBelow (touchInfo c packet) i)) > d.data.max_x ∨
      pos_y packet (recordAt c (validBelow (touchInfo c packet) i)) > d.data.max_y) :
    (∃ t t1, d.transducers[i]? = some t ∧
      (reportAbsolute c d packet).transducers[i]? = some t1 ∧
      t1.x = t.x ∧ t1.y = t.y ∧ t1.tip_switch = t.tip_switch ∧ t1.is_valid = true) ∧
    (reportAbsolute c d packet).events
      = d.events ++ [Event.handleInterruptReport (bits3to7 (touchInfo c packet))
          (reportAbsolute c d packet).transducers] := by
  have hv : contactValid (touchInfo c packet) i = true := by
    rw [contactValid_eq_testBit]
    exact hbit
  constructor
  · obtain ⟨t, ht⟩ := getElem?_of_length hlen hi
    refine ⟨t, slotStep d.data d.mt_interface packet (touchInfo c packet) i
      (recordAt c (validBelow (touchInfo c packet) i)) t, ht, ?_, ?_⟩
    · rw [reportAbsolute_slot c d packet i hi, ht, Option.map_some']
    · rw [slotStep_rejected _ _ _ _ _ _ _ hv (overMax_eq_true hover)]
      simp [prepareTransducer, hv]
  · rw [reportAbsolute_events, validBelow_eq_bits3to7]

/-- Witness of C2 (amended): the theorem applied to the started driver and
`overPacket`, slot 0. -/
theorem reportAbsolute_over_max_witness :
    startDriver.transducers.length = ETP_MAX_FINGERS ∧ 0 < ETP_MAX_FINGERS ∧
    (touchInfo refHeader overPacket).testBit (3 + 0) = true ∧
    (pos_x overPacket (recordAt refHeader (validBelow (touchInfo refHeader overPacket) 0))
        > startDriver.data.max_x ∨
      pos_y overPacket (recordAt refHeader (validBelow (touchInfo refHeader overPacket) 0))
        > startDriver.data.max_y) ∧
    ((∃ t t1, startDriver.transducers[0]? = some t ∧
      (reportAbsolute refHeader startDriver overPacket).transducers[0]? = some t1 ∧
      t1.x = t.x ∧ t1.y = t.y ∧ t1.tip_switch = t.tip_switch ∧ t1.is_valid = true) ∧
    (reportAbsolute refHeader startDriver overPacket).events
      = startDriver.events ++ [Event.handleInterruptReport (bits3to7 (touchInfo refHeader overPacket))
          (reportAbsolute refHeader startDriver overPacket).transducers]) :=
  ⟨by decide, by decide, by decide, by decide,
    reportAbsolute_over_max refHeader startDriver overPacket 0 (by decide) (by decide)
      (by decide) (by decide)⟩

/-- A slot that is invalid throughout a run of reports keeps its position; once a
report has been handled, its tip switch is cleared. -/
theorem reportAbsoluteAll_invalid (c : Header) (i : Nat) (hi : i < ETP_MAX_FINGERS) :
    ∀ (packets : List (List Nat)) (d : Driver) (t : Transducer),
      d.transducers[i]? = some t →
      (∀ p ∈ packets, (touchInfo c p).testBit (3 + i) = false) →
      ∃ t1, (reportAbsoluteAll c d packets).transducers[i]? = some t1 ∧
        t1.x = t.x ∧ t1.y = t.y ∧
        (packets ≠ [] ∨ (t.tip_switch.value = 0 ∧ t.is_valid = false) →
          t1.tip_switch.value = 0 ∧ t1.is_valid = false) := by
  intro packets
  induction packets with
  | nil =>
    intro d t ht _
    refine ⟨t, ht, rfl, rfl, ?_⟩
    intro h
    rcases h with h | h
    · exact absurd rfl h
    · exact h
  | cons p ps ih =>
    intro d t ht hclear
    obtain ⟨t1, h1, hx1, hy1, htip1, hval1⟩ :=
      reportAbsolute_invalid_step c d p i t hi ht (hclear p (List.mem_cons_self p ps))
    obtain ⟨t2, h2, hx2, hy2, hrest⟩ :=
      ih (reportAbsolute c d p) t1 h1 (fun q hq => hclear q (List.mem_cons_of_mem p hq))
    refine ⟨t2, h2, hx2.trans hx1, hy2.trans hy1, fun _ => hrest (Or.inr ⟨htip1, hval1⟩)⟩

/-- C3: for a slot whose validity bit is clear in every report of a run, after
the run the slot's `x` and `y` equal their values before the run, and after any
report of the run (the run is not empty) its tip switch is 0. A run of one
report is the single-report case. -/
theorem reportAbsolute_invalid_slot_holds (c : Header) (d : Driver)
    (packets : List (List Nat)) (i : Nat)
    (hlen : d.transducers.length = ETP_MAX_FINGERS) (hi : i < ETP_MAX_FINGERS)
    (hclear : ∀ p ∈ packets, (touchInfo c p).testBit (3 + i) = false) :
    ∃ t t1, d.transducers[i]? = some t ∧
      (reportAbsoluteAll c d packets).transducers[i]? = some t1 ∧
      t1.x.value = t.x.value ∧ t1.y.value = t.y.value ∧
      (packets ≠ [] → t1.tip_switch.value = 0) := by
  obtain ⟨t, ht⟩ := getElem?_of_length hlen hi
  obtain ⟨t1, h1, hx, hy, htip⟩ := reportAbsoluteAll_invalid c i hi packets d t ht hclear
  exact ⟨t, t1, ht, h1, by rw [hx], by rw [hy], fun hne => (htip (Or.inl hne)).1⟩

/-- Witness of C3: slot 0 after a touch at `(100, 1688)` followed by two reports
in which it is invalid. -/
theorem reportAbsolute_invalid_slot_holds_witness :
    (reportAbsolute refHeader startDriver samplePacket).transducers.length = ETP_MAX_FINGERS ∧
    0 < ETP_MAX_FINGERS ∧
    (∀ p ∈ [liftPacket, liftPacket], (touchInfo refHeader p).testBit (3 + 0) = false) ∧
    ∃ t t1, (reportAbsolute refHeader startDriver samplePacket).transducers[0]? = some t ∧
      (reportAbsoluteAll refHeader (reportAbsolute refHeader startDriver samplePacket)
        [liftPacket, liftPacket]).transducers[0]? = some t1 ∧
      t1.x.value = t.x.value ∧ t1.y.value = t.y.value ∧
      ([liftPacket, liftPacket] ≠ [] → t1.tip_switch.value = 0) :=
  ⟨by decide, by decide, by decide,
    reportAbsolute_invalid_slot_holds refHeader
      (reportAbsolute refHeader startDriver samplePacket) [liftPacket, liftPacket] 0
      (by decide) (by decide) (by decide)⟩

/-- A run evaluated: after the touch and two reports without contact,
slot 0 is still at `(100, 1688)` with its tip switch cleared. -/
theorem reportAbsolute_lift_sample :
    (reportAbsoluteAll refHeader startDriver [samplePacket, liftPacket, liftPacket]).events.map
        eventSummary
      = [(2, [(true, 100, 1688, 1), (false, 0, 0, 0), (true, 308, 1290, 1),
              (false, 0, 0, 0), (false, 0, 0, 0)]),
         (0, [(false, 100, 1688, 0), (false, 0, 0, 0), (false, 308, 1290, 0),
              (false, 0, 0, 0), (false, 0, 0, 0)]),
         (0, [(false, 100, 1688, 0), (false, 0, 0, 0), (false, 308, 1290, 0),
              (false, 0, 0, 0), (false, 0, 0, 0)])] := by
  decide

/-! ## Trackpoint -/

theorem land_two_pow (b k : Nat) : b &&& 2 ^ k = if b.testBit k then 2 ^ k else 0 := by
  apply Nat.eq_of_testBit_eq
  intro j
  rw [Nat.testBit_and, Nat.testBit_two_pow]
  by_cases hj : k = j
  · subst hj
    cases h : b.testBit k <;> simp [Nat.testBit_two_pow]
  · cases h : b.testBit k <;> simp [hj, Nat.testBit_two_pow]

theorem btnMiddle_of_set (c : Header) (report : List Nat)
    (h : (payload c report 0).testBit 2 = true) : btnMiddle c report = 4 := by
  have := land_two_pow (payload c report 0) 2
  rw [h] at this
  simpa [btnMiddle] using this

theorem btnMiddle_of_clear (c : Header) (report : List Nat)
    (h : (payload c report 0).testBit 2 = false) : btnMiddle c report = 0 := by
  have := land_two_pow (payload c report 0) 2
  rw [h] at this
  simpa [btnMiddle] using this

/-- With the middle button held, the flag ends set when it was set or when both
deltas are nonzero. -/
theorem nextScrolling_of_set (c : Header) (scrolling : Bool) (report : List Nat)
    (h : (payload c report 0).testBit 2 = true) :
    nextScrolling c scrolling report
      = (scrolling || (decide (tpX c report ≠ 0) && decide (tpY c report ≠ 0))) := by
  have hm := btnMiddle_of_set c report h
  unfold nextScrolling
  rw [hm]
  by_cases hx : tpX c report = 0 <;> by_cases hy : tpY c report = 0 <;>
    cases scrolling <;> simp [hx, hy]

/-- With the middle button released, the flag ends clear. -/
theorem nextScrolling_of_clear (c : Header) (scrolling : Bool) (report : List Nat)
    (h : (payload c report 0).testBit 2 = false) :
    nextScrolling c scrolling report = false := by
  have hm := btnMiddle_of_clear c report h
  unfold nextScrolling
  simp [hm]

/-- While the flag is set and the middle button stays held, every report is
emitted as its scroll event. -/
theorem reportTrackpointAll_scrolling (c : Header) :
    ∀ (reports : List (List Nat)) (d : Driver), d.trackpointScrolling = true →
      (∀ q ∈ reports, (payload c q 0).testBit 2 = true) →
      (reportTrackpointAll c d reports).events = d.events ++ reports.map (scrollEvent c) ∧
      (reportTrackpointAll c d reports).trackpointScrolling = true := by
  intro reports
  induction reports with
  | nil =>
    intro d hs _
    exact ⟨by simp [reportTrackpointAll], hs⟩
  | cons q qs ih =>
    intro d hs hmid
    have hn : nextScrolling c d.trackpointScrolling q = true := by
      rw [nextScrolling_of_set c _ q (hmid q (List.mem_cons_self q qs)), hs]
      rfl
    have hstep : (reportTrackpoint c d q).trackpointScrolling = true := hn
    have hev : (reportTrackpoint c d q).events = d.events ++ [scrollEvent c q] := by
      show d.events ++ [tpEvent c (nextScrolling c d.trackpointScrolling q) q] = _
      rw [hn]
      rfl
    obtain ⟨h1, h2⟩ := ih (reportTrackpoint c d q) hstep
      (fun r hr => hmid r (List.mem_cons_of_mem q hr))
    refine ⟨?_, h2⟩
    show (reportTrackpointAll c (reportTrackpoint c d q) qs).events = _
    rw [h1, hev]
    simp

/-- C4: once a report has the middle button held and both decoded deltas
nonzero, that report and every following report with the middle button held is
emitted as its scroll event `updateScrollwheel(-y, -x, 0)`, whatever its deltas,
and the state stays scrolling; the first report whose middle bit is clear is
emitted as a relative-pointer event and ends scrolling. -/
theorem reportTrackpoint_scroll_hysteresis (c : Header) (d : Driver) (first : List Nat)
    (rest : List (List Nat))
    (hmid : (payload c first 0).testBit 2 = true)
    (hx : tpX c first ≠ 0) (hy : tpY c first ≠ 0)
    (hheld : ∀ q ∈ rest, (payload c q 0).testBit 2 = true) :
    (reportTrackpointAll c d (first :: rest)).events
        = d.events ++ (first :: rest).map (scrollEvent c) ∧
    (reportTrackpointAll c d (first :: rest)).trackpointScrolling = true ∧
    ∀ q, (payload c q 0).testBit 2 = false →
      (reportTrackpoint c (reportTrackpointAll c d (first :: rest)) q).events
          = (reportTrackpointAll c d (first :: rest)).events ++ [pointerEvent c q] ∧
      (reportTrackpoint c (reportTrackpointAll c d (first :: rest)) q).trackpointScrolling
          = false := by
  have hn : nextScrolling c d.trackpointScrolling first = true := by
    rw [nextScrolling_of_set c _ first hmid]
    simp [hx, hy]
  have hstep : (reportTrackpoint c d first).trackpointScrolling = true := hn
  have hev : (reportTrackpoint c d first).events = d.events ++ [scrollEvent c first] := by
    show d.events ++ [tpEvent c (nextScrolling c d.trackpointScrolling first) first] = _
    rw [hn]
    rfl
  obtain ⟨h1, h2⟩ := reportTrackpointAll_scrolling c rest (reportTrackpoint c d first) hstep hheld
  refine ⟨?_, h2, ?_⟩
  · show (reportTrackpointAll c (reportTrackpoint c d first) rest).events = _
    rw [h1, hev]
    simp
  · intro q hq
    have hq0 : nextScrolling c
        (reportTrackpointAll c d (first :: rest)).trackpointScrolling q = false :=
      nextScrolling_of_clear c _ q hq
    constructor
    · show _ ++ [tpEvent c (nextScrolling c _ q) q] = _
      rw [hq0]
      rfl
    · exact hq0

/-- Witness of C4: a scroll trigger followed by two reports with the middle
button held and no motion. -/
theorem reportTrackpoint_scroll_hysteresis_witness :
    (payload refHeader scrollReport 0).testBit 2 = true ∧
    tpX refHeader scrollReport ≠ 0 ∧ tpY refHeader scrollReport ≠ 0 ∧
    (∀ q ∈ [holdReport, holdReport], (payload refHeader q 0).testBit 2 = true) ∧
    ((reportTrackpointAll refHeader startDriver (scrollReport :: [holdReport, holdReport])).events
        = startDriver.events ++ (scrollReport :: [holdReport, holdReport]).map (scrollEvent refHeader) ∧
    (reportTrackpointAll refHeader startDriver
        (scrollReport :: [holdReport, holdReport])).trackpointScrolling = true ∧
    ∀ q, (payload refHeader q 0).testBit 2 = false →
      (reportTrackpoint refHeader (reportTrackpointAll refHeader startDriver
          (scrollReport :: [holdReport, holdReport])) q).events
          = (reportTrackpointAll refHeader startDriver
              (scrollReport :: [holdReport, holdReport])).events ++ [pointerEvent refHeader q] ∧
      (reportTrackpoint refHeader (reportTrackpointAll refHeader startDriver
          (scrollReport :: [holdReport, holdReport])) q).trackpointScrolling = false) :=
  ⟨by decide, by decide, by decide, by decide,
    reportTrackpoint_scroll_hysteresis refHeader startDriver scrollReport [holdReport, holdReport]
      (by decide) (by decide) (by decide) (by decide)⟩

/-- The run of the witness evaluated: one scroll event `(-3, -5, 0)` and two
scroll events `(0, 0, 0)`. -/
theorem reportTrackpoint_hold_sample :
    (reportTrackpointAll refHeader startDriver [scrollReport, holdReport, holdReport]).events
      = [Event.updateScrollwheel (-3) (-5) 0, Event.updateScrollwheel 0 0 0,
         Event.updateScrollwheel 0 0 0] := by
  decide

/-- C5: for a trackpoint report with the middle bit (bit 2 of payload byte 0)
set, the low nibble of payload byte 3 equal to 6, and the deltas
`x = b4 - ((b1 XOR 0x80) << 1)` and `y = ((b2 XOR 0x80) << 1) - b5` both nonzero,
`reportTrackpoint` emits exactly the scroll event `(-y, -x, 0)` and leaves the
state scrolling, whatever the prior state. -/
theorem reportTrackpoint_scroll_event (c : Header) (d : Driver) (report : List Nat)
    (hmid : (payload c report 0).testBit 2 = true)
    (hnib : payload c report 3 &&& 0x0F = 0x06)
    (hx : (payload c report 4 : Int) - (((payload c report 1 ^^^ 0x80) <<< 1 : Nat) : Int) ≠ 0)
    (hy : (((payload c report 2 ^^^ 0x80) <<< 1 : Nat) : Int) - (payload c report 5 : Int) ≠ 0) :
    (reportTrackpoint c d report).events
      = d.events ++ [Event.updateScrollwheel
          (-((((payload c report 2 ^^^ 0x80) <<< 1 : Nat) : Int) - (payload c report 5 : Int)))
          (-((payload c report 4 : Int) - (((payload c report 1 ^^^ 0x80) <<< 1 : Nat) : Int)))
          0] ∧
    (reportTrackpoint c d report).trackpointScrolling = true := by
  have hm : tpHasMotion c report = true := by simp [tpHasMotion, hnib]
  have hxe : tpX c report
      = (payload c report 4 : Int) - (((payload c report 1 ^^^ 0x80) <<< 1 : Nat) : Int) := by
    simp [tpX, hm]
  have hye : tpY c report
      = (((payload c report 2 ^^^ 0x80) <<< 1 : Nat) : Int) - (payload c report 5 : Int) := by
    simp [tpY, hm]
  have hn : nextScrolling c d.trackpointScrolling report = true := by
    rw [nextScrolling_of_set c _ report hmid, hxe, hye]
    simp [hx, hy]
  constructor
  · show d.events ++ [tpEvent c (nextScrolling c d.trackpointScrolling report) report] = _
    rw [hn]
    simp only [tpEvent, if_true, hxe, hye]
  · exact hn

/-- Witness of C5: the report decoding to `x = 5`, `y = 3`, from the idle state. -/
theorem reportTrackpoint_scroll_event_witness :
    (payload refHeader scrollReport 0).testBit 2 = true ∧
    payload refHeader scrollReport 3 &&& 0x0F = 0x06 ∧
    (payload refHeader scrollReport 4 : Int)
      - (((payload refHeader scrollReport 1 ^^^ 0x80) <<< 1 : Nat) : Int) = 5 ∧
    (((payload refHeader scrollReport 2 ^^^ 0x80) <<< 1 : Nat) : Int)
      - (payload refHeader scrollReport 5 : Int) = 3 ∧
    (reportTrackpoint refHeader startDriver scrollReport).events
      = startDriver.events ++ [Event.updateScrollwheel (-3) (-5) 0] ∧
    (reportTrackpoint refHeader startDriver scrollReport).trackpointScrolling = true :=
  ⟨by decide, by decide, by decide, by decide,
    reportTrackpoint_scroll_event refHeader startDriver scrollReport (by decide) (by decide)
      (by decide) (by decide)⟩

/-! ## Initialisation -/

theorem helloMismatch_iff (values : List Nat) :
    helloMismatch values = true ↔ ∃ k, k < ETP_SMBUS_HELLOPACKET_LEN ∧ rd values k ≠ 0x55 := by
  simp [helloMismatch, List.any_eq_true]

/-- C6: hello-packet verification. With `(len, values)` the result of the hello
read: if `len` is not 5, `initialize` returns `len` when `len` is negative and
`-EIO` otherwise, which is nonzero; if `len` is 5 and some byte of the first
five differs from `0x55`, it returns `-ENXIO`, which differs from `-EIO`; in both
cases the bus has seen the hello read and nothing else, so neither the enable
command nor the mode-set command is written. It returns 0 only when `len` is 5
and the five bytes are all `0x55`. -/
theorem smbusInitialize_hello (c : Header) (nub : VoodooSMBusDeviceNub) (len : Int)
    (values : List Nat)
    (hreply : nub.readReply nub.log c.ETP_SMBUS_HELLOPACKET_CMD = (len, values)) :
    (len ≠ 5 →
      (smbusInitialize c nub).1 = (if len < 0 then len else - EIO) ∧
      (smbusInitialize c nub).1 ≠ 0 ∧
      (smbusInitialize c nub).2.log
        = nub.log ++ [BusOp.readBlockData c.ETP_SMBUS_HELLOPACKET_CMD]) ∧
    (len = 5 → (∃ k, k < 5 ∧ rd values k ≠ 0x55) →
      (smbusInitialize c nub).1 = - ENXIO ∧
      (smbusInitialize c nub).1 ≠ 0 ∧
      (smbusInitialize c nub).2.log
        = nub.log ++ [BusOp.readBlockData c.ETP_SMBUS_HELLOPACKET_CMD]) ∧
    - ENXIO ≠ - EIO ∧
    ((smbusInitialize c nub).1 = 0 → len = 5 ∧ ∀ k, k < 5 → rd values k = 0x55) := by
  have hr1 : (nub.readBlockData c.ETP_SMBUS_HELLOPACKET_CMD).1.1 = len := by
    simp [VoodooSMBusDeviceNub.readBlockData, hreply]
  have hr2 : (nub.readBlockData c.ETP_SMBUS_HELLOPACKET_CMD).1.2 = values := by
    simp [VoodooSMBusDeviceNub.readBlockData, hreply]
  have hlog : (nub.readBlockData c.ETP_SMBUS_HELLOPACKET_CMD).2.log
      = nub.log ++ [BusOp.readBlockData c.ETP_SMBUS_HELLOPACKET_CMD] := rfl
  have hlen5 : ((ETP_SMBUS_HELLOPACKET_LEN : Nat) : Int) = 5 := rfl
  refine ⟨?_, ?_, by decide, ?_⟩
  · intro hne
    have hval : (smbusInitialize c nub) = ((if len < 0 then len else - EIO),
        (nub.readBlockData c.ETP_SMBUS_HELLOPACKET_CMD).2) := by
      simp only [smbusInitialize, hr1, hlen5]
      rw [if_pos hne]
    rw [hval]
    refine ⟨rfl, ?_, hlog⟩
    show (if len < 0 then len else - EIO) ≠ 0
    by_cases hneg : len < 0
    · rw [if_pos hneg]
      omega
    · rw [if_neg hneg]
      decide
  · intro heq hbad
    have hm : helloMismatch values = true := (helloMismatch_iff values).2 hbad
    have hval : (smbusInitialize c nub) = (- ENXIO,
        (nub.readBlockData c.ETP_SMBUS_HELLOPACKET_CMD).2) := by
      simp only [smbusInitialize, hr1, hr2, hlen5]
      rw [if_neg (not_not.2 heq), if_pos hm]
    rw [hval]
    refine ⟨rfl, ?_, hlog⟩
    show - ENXIO ≠ 0
    decide
  · intro h0
    by_cases hne : len ≠ 5
    · exfalso
      have hval : (smbusInitialize c nub).1 = (if len < 0 then len else - EIO) := by
        simp only [smbusInitialize, hr1, hlen5]
        rw [if_pos hne]
      rw [hval] at h0
      by_cases hneg : len < 0
      · rw [if_pos hneg] at h0
        omega
      · rw [if_neg hneg] at h0
        exact absurd h0 (by decide)
    · have heq : len = 5 := not_not.1 hne
      refine ⟨heq, ?_⟩
      by_cases hm : helloMismatch values = true
      · exfalso
        have hval : (smbusInitialize c nub).1 = - ENXIO := by
          simp only [smbusInitialize, hr1, hr2, hlen5]
          rw [if_neg hne, if_pos hm]
        rw [hval] at h0
        exact absurd h0 (by decide)
      · intro k hk
        by_contra hk2
        exact hm ((helloMismatch_iff values).2 ⟨k, hk, hk2⟩)

/-- Witness of C6: the theorem applied to a bus whose hello read returns five
bytes with one byte off. -/
theorem smbusInitialize_hello_witness :
    badHelloBus.readReply badHelloBus.log refHeader.ETP_SMBUS_HELLOPACKET_CMD
      = (5, [0x55, 0x55, 0x54, 0x55, 0x55]) ∧
    (∃ k, k < 5 ∧ rd [0x55, 0x55, 0x54, 0x55, 0x55] k ≠ 0x55) ∧
    (smbusInitialize refHeader badHelloBus).1 = - ENXIO ∧
    (smbusInitialize refHeader badHelloBus).1 ≠ 0 ∧
    (smbusInitialize refHeader badHelloBus).2.log
      = badHelloBus.log ++ [BusOp.readBlockData refHeader.ETP_SMBUS_HELLOPACKET_CMD] :=
  ⟨rfl, ⟨2, by decide, by decide⟩,
    (smbusInitialize_hello refHeader badHelloBus 5 [0x55, 0x55, 0x54, 0x55, 0x55] rfl).2.1 rfl
      ⟨2, by decide, by decide⟩⟩

/-- The three outcomes of the hello check evaluated: a short read gives `-EIO`,
a wrong byte gives `-ENXIO`, both with the hello read as the only bus operation;
the hello packet lets the enable and mode-set writes follow. -/
theorem smbusInitialize_samples :
    (smbusInitialize refHeader shortHelloBus).1 = -5 ∧
    (smbusInitialize refHeader shortHelloBus).2.log = [BusOp.readBlockData 7] ∧
    (smbusInitialize refHeader badHelloBus).1 = -6 ∧
    (smbusInitialize refHeader badHelloBus).2.log = [BusOp.readBlockData 7] ∧
    (smbusInitialize refHeader helloBus).1 = 0 ∧
    (smbusInitialize refHeader helloBus).2.log
      = [BusOp.readBlockData 7, BusOp.writeByte 0x20, BusOp.writeBlockData 0 4 [0, 7, 0, 1]] := by
  decide

/-! ## Retries -/

/-- Each call of `initialize` reads the hello packet exactly once. -/
theorem smbusInitialize_reads (c : Header) (nub : VoodooSMBusDeviceNub) :
    readsOf c.ETP_SMBUS_HELLOPACKET_CMD (smbusInitialize c nub).2.log
      = readsOf c.ETP_SMBUS_HELLOPACKET_CMD nub.log + 1 := by
  unfold smbusInitialize
  simp only [readsOf]
  split
  · simp [VoodooSMBusDeviceNub.readBlockData]
  · split
    · simp [VoodooSMBusDeviceNub.readBlockData]
    · split
      · simp [VoodooSMBusDeviceNub.readBlockData, VoodooSMBusDeviceNub.writeByte,
          List.count_append, List.count_cons]
      · split <;>
          simp [setMode, VoodooSMBusDeviceNub.readBlockData, VoodooSMBusDeviceNub.writeByte,
            VoodooSMBusDeviceNub.writeBlockData, List.count_append, List.count_cons]

theorem attempts_reads (c : Header) :
    ∀ (k : Nat) (nub : VoodooSMBusDeviceNub),
      readsOf c.ETP_SMBUS_HELLOPACKET_CMD (attempts c k nub).log
        = readsOf c.ETP_SMBUS_HELLOPACKET_CMD nub.log + k := by
  intro k
  induction k with
  | zero => intro nub; rfl
  | succ k ih =>
    intro nub
    show readsOf _ (attempts c k (smbusInitialize c nub).2).log = _
    rw [ih, smbusInitialize_reads]
    omega

/-- The loop stops with 0 at the first attempt that succeeds, when that attempt
is within the count. -/
theorem tryInitializeLoop_success (c : Header) :
    ∀ (n : Nat) (repeat_ : Int) (nub : VoodooSMBusDeviceNub), (n : Int) < repeat_ →
      (∀ k, k < n → (smbusInitialize c (attempts c k nub)).1 ≠ 0) →
      (smbusInitialize c (attempts c n nub)).1 = 0 →
      tryInitializeLoop c repeat_ nub = (0, attempts c (n + 1) nub) := by
  intro n
  induction n with
  | zero =>
    intro repeat_ nub _ _ hok
    have hok' : (smbusInitialize c nub).1 = 0 := hok
    rw [tryInitializeLoop, if_pos hok']
    rfl
  | succ n ih =>
    intro repeat_ nub hlt hfail hok
    have h0 : (smbusInitialize c nub).1 ≠ 0 := hfail 0 (Nat.succ_pos n)
    have hgt : repeat_ - 1 > 0 := by omega
    rw [tryInitializeLoop, if_neg h0, if_pos hgt]
    rw [ih (repeat_ - 1) (smbusInitialize c nub).2 (by omega)
      (fun k hk => hfail (k + 1) (by omega)) hok]
    rfl

/-- The loop stops after `n + 1` attempts when the count is `n + 1` and every
attempt fails; it returns the error of the last attempt. -/
theorem tryInitializeLoop_failure (c : Header) :
    ∀ (n : Nat) (repeat_ : Int) (nub : VoodooSMBusDeviceNub), repeat_ = (n : Int) + 1 →
      (∀ k, k ≤ n → (smbusInitialize c (attempts c k nub)).1 ≠ 0) →
      tryInitializeLoop c repeat_ nub
        = ((smbusInitialize c (attempts c n nub)).1, attempts c (n + 1) nub) := by
  intro n
  induction n with
  | zero =>
    intro repeat_ nub hrep hfail
    have h0 : (smbusInitialize c nub).1 ≠ 0 := hfail 0 (Nat.le_refl 0)
    have hgt : ¬ (repeat_ - 1 > 0) := by omega
    rw [tryInitializeLoop, if_neg h0, if_neg hgt]
    rfl
  | succ n ih =>
    intro repeat_ nub hrep hfail
    have h0 : (smbusInitialize c nub).1 ≠ 0 := hfail 0 (Nat.zero_le _)
    have hgt : repeat_ - 1 > 0 := by omega
    rw [tryInitializeLoop, if_neg h0, if_pos hgt]
    rw [ih (repeat_ - 1) (smbusInitialize c nub).2 (by omega)
      (fun k hk => hfail (k + 1) (by omega))]
    rfl

/-- C7: with a retry count `R >= 1`: if `initialize` fails `n` times and then
succeeds, with `n < R`, `tryInitialize` returns 0 and the bus is the bus after
exactly `n + 1` attempts; if `initialize` fails on each of the first `R`
attempts, `tryInitialize` returns the error of attempt `R`, which is nonzero,
and the bus is the bus after exactly `R` attempts. The bus after `k` attempts
has seen exactly `k` more hello reads. -/
theorem tryInitialize_retry (c : Header) (nub : VoodooSMBusDeviceNub) (R : Nat)
    (hR : 1 ≤ R) (hcount : c.ETP_RETRY_COUNT = (R : Int)) :
    (∀ n, n < R →
      (∀ k, k < n → (smbusInitialize c (attempts c k nub)).1 ≠ 0) →
      (smbusInitialize c (attempts c n nub)).1 = 0 →
      tryInitialize c nub = (0, attempts c (n + 1) nub)) ∧
    ((∀ k, k < R → (smbusInitialize c (attempts c k nub)).1 ≠ 0) →
      tryInitialize c nub = ((smbusInitialize c (attempts c (R - 1) nub)).1, attempts c R nub) ∧
      (tryInitialize c nub).1 ≠ 0) ∧
    (∀ k, readsOf c.ETP_SMBUS_HELLOPACKET_CMD (attempts c k nub).log
      = readsOf c.ETP_SMBUS_HELLOPACKET_CMD nub.log + k) := by
  refine ⟨?_, ?_, fun k => attempts_reads c k nub⟩
  · intro n hn hfail hok
    unfold tryInitialize
    rw [hcount]
    exact tryInitializeLoop_success c n R nub (by omega) hfail hok
  · intro hfail
    have hval : tryInitialize c nub
        = ((smbusInitialize c (attempts c (R - 1) nub)).1, attempts c R nub) := by
      unfold tryInitialize
      rw [hcount]
      have := tryInitializeLoop_failure c (R - 1) R nub (by omega)
        (fun k hk => hfail k (by omega))
      rw [this]
      have hR1 : R - 1 + 1 = R := by omega
      rw [hR1]
    refine ⟨hval, ?_⟩
    rw [hval]
    exact hfail (R - 1) (by omega)

/-- Witness of C7: with the count 5, two failed hello reads followed by a good
one. -/
theorem tryInitialize_retry_witness :
    1 ≤ 5 ∧ refHeader.ETP_RETRY_COUNT = ((5 : Nat) : Int) ∧ 2 < 5 ∧
    (∀ k, k < 2 → (smbusInitialize refHeader (attempts refHeader k (lateHelloBus 2))).1 ≠ 0) ∧
    (smbusInitialize refHeader (attempts refHeader 2 (lateHelloBus 2))).1 = 0 ∧
    tryInitialize refHeader (lateHelloBus 2) = (0, attempts refHeader (2 + 1) (lateHelloBus 2)) :=
  have hfail : ∀ k, k < 2 →
      (smbusInitialize refHeader (attempts refHeader k (lateHelloBus 2))).1 ≠ 0 := by decide
  have hok : (smbusInitialize refHeader (attempts refHeader 2 (lateHelloBus 2))).1 = 0 := by
    decide
  ⟨by decide, rfl, by decide, hfail, hok,
    (tryInitialize_retry refHeader (lateHelloBus 2) 5 (by decide) rfl).1 2 (by decide) hfail hok⟩

/-- The retry loop evaluated on a bus whose hello read always fails: five
attempts, the last error returned, and no write. -/
theorem tryInitialize_failure_sample :
    tryInitialize refHeader (lateHelloBus 9)
      = (-16, attempts refHeader 5 (lateHelloBus 9)) ∧
    (attempts refHeader 5 (lateHelloBus 9)).log
      = [BusOp.readBlockData 7, BusOp.readBlockData 7, BusOp.readBlockData 7,
         BusOp.readBlockData 7, BusOp.readBlockData 7] := by
  constructor
  · have h := tryInitializeLoop_failure refHeader 4 5 (lateHelloBus 9) rfl (by decide)
    exact h
  · decide

/-! ## Input gate -/

theorem reportAbsolute_events_length (c : Header) (d : Driver) (packet : List Nat) :
    (reportAbsolute c d packet).events.length = d.events.length + 1 := by
  simp [reportAbsolute]

theorem reportTrackpoint_events_length (c : Header) (d : Driver) (report : List Nat) :
    (reportTrackpoint c d report).events.length = d.events.length + 1 := by
  simp [reportTrackpoint]

/-- A report that was read is dropped when the gate is closed and handed to the
`switch` when it is open. -/
theorem handleHostNotify_read (c : Header) (d : Driver) (timestamp_ns : Nat) (stack : List Nat)
    (hread : (getReport c d.device_nub stack).1 = 0) :
    handleHostNotify c d timestamp_ns stack
      = if d.ignoreall = true ∨ sub64 timestamp_ns d.keytime < c.maxaftertyping % 2 ^ 64 then
          afterRead c d stack
        else dispatchReport c (afterRead c d stack) (readReport c d stack) := by
  have hne : ¬ ((getReport c d.device_nub stack).1 ≠ 0) := not_not.2 hread
  unfold handleHostNotify
  simp only [if_neg hne]
  by_cases hi : d.ignoreall = true
  · rw [if_pos hi, if_pos (Or.inl hi)]
    rfl
  · rw [if_neg hi]
    by_cases ht : sub64 timestamp_ns d.keytime < c.maxaftertyping % 2 ^ 64
    · have hg : afterTyping c d.keytime timestamp_ns = true := by
        simp only [afterTyping, decide_eq_true_eq]
        exact ht
      rw [if_pos hg, if_pos (Or.inr ht)]
      rfl
    · have hg : ¬ (afterTyping c d.keytime timestamp_ns = true) := by
        simp only [afterTyping, decide_eq_true_eq]
        exact ht
      have hno : ¬ (d.ignoreall = true ∨ sub64 timestamp_ns d.keytime < c.maxaftertyping % 2 ^ 64) :=
        fun h => h.elim hi ht
      rw [if_neg hg, if_neg hno]
      rfl

theorem sub64_of_le {a b : Nat} (ha : a < 2 ^ 64) (hba : b ≤ a) : sub64 a b = a - b := by
  unfold sub64
  have hb : b < 2 ^ 64 := by omega
  rw [Nat.mod_eq_of_lt ha, Nat.mod_eq_of_lt hb]
  have : a + 2 ^ 64 - b = (a - b) + 2 ^ 64 := by omega
  rw [this, Nat.add_mod_right, Nat.mod_eq_of_lt (by omega)]

theorem dispatchReport_known (c : Header) (d : Driver) (report : List Nat)
    (hid : rd report c.ETP_REPORT_ID_OFFSET = c.ETP_REPORT_ID ∨
      rd report c.ETP_REPORT_ID_OFFSET = c.ETP_TP_REPORT_ID) :
    dispatchReport c d report = decodeReport c d report := by
  unfold dispatchReport decodeReport
  by_cases h1 : rd report c.ETP_REPORT_ID_OFFSET = c.ETP_REPORT_ID
  · rw [if_pos h1, if_pos h1]
  · have h2 : rd report c.ETP_REPORT_ID_OFFSET = c.ETP_TP_REPORT_ID := hid.resolve_left h1
    rw [if_neg h1, if_neg h1, if_pos h2]

theorem decodeReport_events_length (c : Header) (d : Driver) (report : List Nat) :
    (decodeReport c d report).events.length = d.events.length + 1 := by
  unfold decodeReport
  split
  · exact reportAbsolute_events_length c d report
  · exact reportTrackpoint_events_length c d report

/-- C8, as stated, fails: the report read from `reportBus [0]` has the
identifier 0, `ignoreall` is false and the quiet window has passed, yet no
decoder is invoked: no event is emitted and the slots and the scroll flag are
as before. -/
theorem unknown_report_id_not_decoded :
    (getReport refHeader (driverOn (reportBus [0])).device_nub []).1 = 0 ∧
    (driverOn (reportBus [0])).ignoreall = false ∧
    ¬ (sub64 1000000000 (driverOn (reportBus [0])).keytime < refHeader.maxaftertyping) ∧
    (handleHostNotify refHeader (driverOn (reportBus [0])) 1000000000 []).events = [] ∧
    (handleHostNotify refHeader (driverOn (reportBus [0])) 1000000000 []).transducers
      = (driverOn (reportBus [0])).transducers ∧
    (handleHostNotify refHeader (driverOn (reportBus [0])) 1000000000 []).trackpointScrolling
      = (driverOn (reportBus [0])).trackpointScrolling := by
  decide

/-- C8, amended: a successfully read report whose identifier is `ETP_REPORT_ID`
or `ETP_TP_REPORT_ID` is handed to its decoder if and only if `ignoreall` is
false and not `now - keytime < maxaftertyping` (in `uint64_t`); otherwise it is
dropped and only the bus has changed. With `ignoreall` false and a keystroke
recorded at time `T` by `message`, such a report is dropped at every `now` with
`T <= now < T + maxaftertyping` and decoded at every `now >= T + maxaftertyping`. -/
theorem handleHostNotify_gate (c : Header) (d : Driver) (now : Nat) (stack : List Nat) (T : Nat)
    (hread : (getReport c d.device_nub stack).1 = 0)
    (hid : rd (readReport c d stack) c.ETP_REPORT_ID_OFFSET = c.ETP_REPORT_ID ∨
      rd (readReport c d stack) c.ETP_REPORT_ID_OFFSET = c.ETP_TP_REPORT_ID) :
    ((handleHostNotify c d now stack).events.length = d.events.length + 1 ↔
      (d.ignoreall = false ∧ ¬ (sub64 now d.keytime < c.maxaftertyping % 2 ^ 64))) ∧
    ((d.ignoreall = false ∧ ¬ (sub64 now d.keytime < c.maxaftertyping % 2 ^ 64)) →
      handleHostNotify c d now stack
        = decodeReport c (afterRead c d stack) (readReport c d stack)) ∧
    (¬ (d.ignoreall = false ∧ ¬ (sub64 now d.keytime < c.maxaftertyping % 2 ^ 64)) →
      handleHostNotify c d now stack = afterRead c d stack) ∧
    (d.ignoreall = false → T < 2 ^ 64 → now < 2 ^ 64 → c.maxaftertyping < 2 ^ 64 →
      (T ≤ now → now < T + c.maxaftertyping →
        handleHostNotify c (message d (Message.kKeyboardKeyPressTime T)).1 now stack
          = afterRead c (message d (Message.kKeyboardKeyPressTime T)).1 stack) ∧
      (T + c.maxaftertyping ≤ now →
        handleHostNotify c (message d (Message.kKeyboardKeyPressTime T)).1 now stack
          = decodeReport c (afterRead c (message d (Message.kKeyboardKeyPressTime T)).1 stack)
              (readReport c d stack))) := by
  have hopen : (d.ignoreall = false ∧ ¬ (sub64 now d.keytime < c.maxaftertyping % 2 ^ 64)) →
      handleHostNotify c d now stack
        = decodeReport c (afterRead c d stack) (readReport c d stack) := by
    intro hg
    have hno : ¬ (d.ignoreall = true ∨ sub64 now d.keytime < c.maxaftertyping % 2 ^ 64) := by
      intro h
      rcases h with h | h
      · rw [hg.1] at h
        exact Bool.noConfusion h
      · exact hg.2 h
    rw [handleHostNotify_read c d now stack hread, if_neg hno, dispatchReport_known c _ _ hid]
  have hclosed : ¬ (d.ignoreall = false ∧ ¬ (sub64 now d.keytime < c.maxaftertyping % 2 ^ 64)) →
      handleHostNotify c d now stack = afterRead c d stack := by
    intro hg
    have hyes : d.ignoreall = true ∨ sub64 now d.keytime < c.maxaftertyping % 2 ^ 64 := by
      by_cases hi : d.ignoreall = true
      · exact Or.inl hi
      · right
        by_contra ht
        exact hg ⟨by simpa using hi, ht⟩
    rw [handleHostNotify_read c d now stack hread, if_pos hyes]
  refine ⟨?_, hopen, hclosed, ?_⟩
  · constructor
    · intro hlen
      by_contra hg
      rw [hclosed hg] at hlen
      have : (afterRead c d stack).events.length = d.events.length := rfl
      omega
    · intro hg
      rw [hopen hg, decodeReport_events_length]
      rfl
  · intro hig hT hnow hW
    have hkey : (message d (Message.kKeyboardKeyPressTime T)).1.keytime = T := by
      show T % 2 ^ 64 = T
      exact Nat.mod_eq_of_lt hT
    have hWm : c.maxaftertyping % 2 ^ 64 = c.maxaftertyping := Nat.mod_eq_of_lt hW
    constructor
    · intro hle hlt
      have hyes : (message d (Message.kKeyboardKeyPressTime T)).1.ignoreall = true ∨
          sub64 now (message d (Message.kKeyboardKeyPressTime T)).1.keytime
            < c.maxaftertyping % 2 ^ 64 := by
        right
        rw [hkey, hWm, sub64_of_le hnow hle]
        omega
      rw [handleHostNotify_read c (message d (Message.kKeyboardKeyPressTime T)).1 now stack hread,
        if_pos hyes]
    · intro hge
      have hno : ¬ ((message d (Message.kKeyboardKeyPressTime T)).1.ignoreall = true ∨
          sub64 now (message d (Message.kKeyboardKeyPressTime T)).1.keytime
            < c.maxaftertyping % 2 ^ 64) := by
        intro h
        rcases h with h | h
        · have h2 : d.ignoreall = true := h
          rw [hig] at h2
          exact Bool.noConfusion h2
        · rw [hkey, hWm, sub64_of_le hnow (by omega)] at h
          omega
      rw [handleHostNotify_read c (message d (Message.kKeyboardKeyPressTime T)).1 now stack hread,
        if_neg hno]
      exact dispatchReport_known c _ _ hid

/-- Witness of C8 (amended): an absolute report read one second after start,
with a keystroke recorded at 0.1 s and a quiet window of 0.5 s, is decoded. -/
theorem handleHostNotify_gate_witness :
    (getReport refHeader (driverOn (reportBus (samplePacket.drop 2))).device_nub []).1 = 0 ∧
    (rd (readReport refHeader (driverOn (reportBus (samplePacket.drop 2))) [])
        refHeader.ETP_REPORT_ID_OFFSET = refHeader.ETP_REPORT_ID ∨
      rd (readReport refHeader (driverOn (reportBus (samplePacket.drop 2))) [])
        refHeader.ETP_REPORT_ID_OFFSET = refHeader.ETP_TP_REPORT_ID) ∧
    (driverOn (reportBus (samplePacket.drop 2))).ignoreall = false ∧
    100000000 + refHeader.maxaftertyping ≤ 1000000000 ∧
    handleHostNotify refHeader
        (message (driverOn (reportBus (samplePacket.drop 2)))
          (Message.kKeyboardKeyPressTime 100000000)).1 1000000000 []
      = decodeReport refHeader
          (afterRead refHeader
            (message (driverOn (reportBus (samplePacket.drop 2)))
              (Message.kKeyboardKeyPressTime 100000000)).1 [])
          (readReport refHeader (driverOn (reportBus (samplePacket.drop 2))) []) :=
  ⟨by decide, Or.inl (by decide), rfl, by decide,
    ((handleHostNotify_gate refHeader (driverOn (reportBus (samplePacket.drop 2))) 1000000000 []
      100000000 (by decide) (Or.inl (by decide))).2.2.2 rfl (by decide) (by decide)
      (by decide)).2 (by decide)⟩

/-- The gate evaluated: with a keystroke at 0.6 s the report read at 1 s is
dropped, with a keystroke at 0.1 s it is decoded. -/
theorem gate_sample_evaluated :
    (handleHostNotify refHeader
        (message (driverOn (reportBus (samplePacket.drop 2)))
          (Message.kKeyboardKeyPressTime 600000000)).1 1000000000 []).events = [] ∧
    (handleHostNotify refHeader
        (message (driverOn (reportBus (samplePacket.drop 2)))
          (Message.kKeyboardKeyPressTime 100000000)).1 1000000000 []).events.map eventSummary
      = [(2, [(true, 100, 1688, 1), (false, 0, 0, 0), (true, 308, 1290, 1),
              (false, 0, 0, 0), (false, 0, 0, 0)])] := by
  decide

/-! ## Pressure and coordinates -/

/-- C9: for every pressure byte and every `pressure_adjustment`, negative ones
and sums that wrap in `unsigned int` included, the scaled pressure that
`reportContact` computes is at most `ETP_MAX_PRESSURE`. -/
theorem scaledPressure_le_max (c : Header) (data : elan_tp_data) (pressure : Nat) :
    scaledPressure c data pressure ≤ c.ETP_MAX_PRESSURE := by
  unfold scaledPressure
  by_cases h : (pressure + toU32 data.pressure_adjustment) % 2 ^ 32 > c.ETP_MAX_PRESSURE
  · simp only [h, if_true]
    exact Nat.le_refl _
  · simp only [h, if_false]
    exact Nat.le_of_not_gt h

/-- The clamp evaluated with the adjustment of the driver and with adjustments
whose sum wraps: `30 + 25 = 55`, `250 + 25` is clamped to 255, and `30 - 100`
wraps to `2^32 - 70` and is clamped to 255. -/
theorem scaledPressure_samples :
    scaledPressure refHeader startDriver.data 30 = 55 ∧
    scaledPressure refHeader startDriver.data 250 = 255 ∧
    scaledPressure refHeader { startDriver.data with pressure_adjustment := -100 } 30 = 255 ∧
    scaledPressure refHeader { startDriver.data with pressure_adjustment := -30 } 30 = 0 := by
  decide

theorem sub32_of_le {a b : Nat} (ha : a < 2 ^ 32) (hba : b ≤ a) : sub32 a b = a - b := by
  unfold sub32
  have hb : b < 2 ^ 32 := by omega
  rw [Nat.mod_eq_of_lt ha, Nat.mod_eq_of_lt hb]
  have : a + 2 ^ 32 - b = (a - b) + 2 ^ 32 := by omega
  rw [this, Nat.add_mod_right, Nat.mod_eq_of_lt (by omega)]

/-- C10: with the geometry set by `setDeviceParameters`, for a slot whose
validity bit is set: when the record is out of range nothing is stored; when it
is stored, `x = pos_x <= max_x`, `pos_y <= logical_max_y`, so that the
subtraction does not wrap, `y = logical_max_y - pos_y` and `y <= max_y`. -/
theorem reportAbsolute_stored_in_range (c : Header) (d0 : Driver) (packet : List Nat) (i : Nat)
    (hlen : d0.transducers.length = ETP_MAX_FINGERS) (hi : i < ETP_MAX_FINGERS)
    (hbit : (touchInfo c packet).testBit (3 + i) = true) :
    ∃ t t1, (setDeviceParameters d0).transducers[i]? = some t ∧
      (reportAbsolute c (setDeviceParameters d0) packet).transducers[i]? = some t1 ∧
      ((pos_x packet (recordAt c (validBelow (touchInfo c packet) i))
            > (setDeviceParameters d0).data.max_x ∨
          pos_y packet (recordAt c (validBelow (touchInfo c packet) i))
            > (setDeviceParameters d0).data.max_y) →
        t1.x = t.x ∧ t1.y = t.y) ∧
      (¬ (pos_x packet (recordAt c (validBelow (touchInfo c packet) i))
            > (setDeviceParameters d0).data.max_x ∨
          pos_y packet (recordAt c (validBelow (touchInfo c packet) i))
            > (setDeviceParameters d0).data.max_y) →
        t1.x.value = pos_x packet (recordAt c (validBelow (touchInfo c packet) i)) ∧
        t1.x.value ≤ (setDeviceParameters d0).data.max_x ∧
        pos_y packet (recordAt c (validBelow (touchInfo c packet) i))
          ≤ (setDeviceParameters d0).mt_interface.logical_max_y ∧
        t1.y.value = (setDeviceParameters d0).mt_interface.logical_max_y
          - pos_y packet (recordAt c (validBelow (touchInfo c packet) i)) ∧
        t1.y.value ≤ (setDeviceParameters d0).data.max_y) := by
  have hv : contactValid (touchInfo c packet) i = true := by
    rw [contactValid_eq_testBit]
    exact hbit
  have hlen1 : (setDeviceParameters d0).transducers.length = ETP_MAX_FINGERS := hlen
  have hmx : (setDeviceParameters d0).data.max_x = 3052 := rfl
  have hmy : (setDeviceParameters d0).data.max_y = 1888 := rfl
  have hly : (setDeviceParameters d0).mt_interface.logical_max_y = 1888 := rfl
  obtain ⟨t, ht⟩ := getElem?_of_length hlen1 hi
  refine ⟨t, slotStep (setDeviceParameters d0).data (setDeviceParameters d0).mt_interface packet
    (touchInfo c packet) i (recordAt c (validBelow (touchInfo c packet) i)) t, ht, ?_, ?_, ?_⟩
  · rw [reportAbsolute_slot c _ packet i hi, ht, Option.map_some']
  · intro hover
    rw [slotStep_rejected _ _ _ _ _ _ _ hv (overMax_eq_true hover)]
    simp [prepareTransducer]
  · intro hin
    have hx : pos_x packet (recordAt c (validBelow (touchInfo c packet) i))
        ≤ (setDeviceParameters d0).data.max_x := by omega
    have hy : pos_y packet (recordAt c (validBelow (touchInfo c packet) i))
        ≤ (setDeviceParameters d0).data.max_y := by omega
    rw [slotStep_stored _ _ _ _ _ _ _ hv (overMax_eq_false hx hy)]
    rw [hly]
    rw [hmx] at hx
    rw [hmy] at hy
    have hs := sub32_of_le (show 1888 < 2 ^ 32 by decide) hy
    refine ⟨rfl, ?_, hy, ?_, ?_⟩
    · show pos_x packet _ ≤ _
      rw [hmx]
      exact hx
    · exact hs
    · show sub32 _ _ ≤ _
      rw [hs, hmy]
      omega

/-- Witness of C10: slot 0 of the sample report on the started driver. -/
theorem reportAbsolute_stored_in_range_witness :
    initDriver.transducers.length = ETP_MAX_FINGERS ∧ 0 < ETP_MAX_FINGERS ∧
    (touchInfo refHeader samplePacket).testBit (3 + 0) = true ∧
    ∃ t t1, (setDeviceParameters initDriver).transducers[0]? = some t ∧
      (reportAbsolute refHeader (setDeviceParameters initDriver) samplePacket).transducers[0]?
        = some t1 ∧
      ((pos_x samplePacket (recordAt refHeader (validBelow (touchInfo refHeader samplePacket) 0))
            > (setDeviceParameters initDriver).data.max_x ∨
          pos_y samplePacket (recordAt refHeader (validBelow (touchInfo refHeader samplePacket) 0))
            > (setDeviceParameters initDriver).data.max_y) →
        t1.x = t.x ∧ t1.y = t.y) ∧
      (¬ (pos_x samplePacket (recordAt refHeader (validBelow (touchInfo refHeader samplePacket) 0))
            > (setDeviceParameters initDriver).data.max_x ∨
          pos_y samplePacket (recordAt refHeader (validBelow (touchInfo refHeader samplePacket) 0))
            > (setDeviceParameters initDriver).data.max_y) →
        t1.x.value
          = pos_x samplePacket (recordAt refHeader (validBelow (touchInfo refHeader samplePacket) 0)) ∧
        t1.x.value ≤ (setDeviceParameters initDriver).data.max_x ∧
        pos_y samplePacket (recordAt refHeader (validBelow (touchInfo refHeader samplePacket) 0))
          ≤ (setDeviceParameters initDriver).mt_interface.logical_max_y ∧
        t1.y.value = (setDeviceParameters initDriver).mt_interface.logical_max_y
          - pos_y samplePacket
              (recordAt refHeader (validBelow (touchInfo refHeader samplePacket) 0)) ∧
        t1.y.value ≤ (setDeviceParameters initDriver).data.max_y) :=
  ⟨by decide, by decide, by decide,
    reportAbsolute_stored_in_range refHeader initDriver samplePacket 0 (by decide) (by decide)
      (by decide)⟩

/-! ## Dropped reports -/

/-- The result of `getReport` in terms of the length the bus returns. -/
theorem getReport_error (c : Header) (nub : VoodooSMBusDeviceNub) (stack : List Nat) :
    (getReport c nub stack).1
      = if (nub.readReply nub.log c.ETP_SMBUS_PACKET_QUERY).1 < 0 then
          (nub.readReply nub.log c.ETP_SMBUS_PACKET_QUERY).1
        else if (nub.readReply nub.log c.ETP_SMBUS_PACKET_QUERY).1 ≠ c.ETP_SMBUS_REPORT_LEN then
          - EIO
        else 0 := by
  unfold getReport
  simp only [VoodooSMBusDeviceNub.readBlockData]
  split
  · rfl
  · split <;> rfl

/-- C11: if the bus read of `handleHostNotify` fails (negative length) or returns
a length other than `ETP_SMBUS_REPORT_LEN`, or if the report identifier is
neither `ETP_REPORT_ID` nor `ETP_TP_REPORT_ID`, the report is dropped: only the
bus has changed, so no event is emitted and every finger slot and the scrolling
flag are as before. -/
theorem handleHostNotify_dropped (c : Header) (d : Driver) (now : Nat) (stack : List Nat)
    (h : (d.device_nub.readReply d.device_nub.log c.ETP_SMBUS_PACKET_QUERY).1 < 0 ∨
      (d.device_nub.readReply d.device_nub.log c.ETP_SMBUS_PACKET_QUERY).1
        ≠ c.ETP_SMBUS_REPORT_LEN ∨
      (rd (readReport c d stack) c.ETP_REPORT_ID_OFFSET ≠ c.ETP_REPORT_ID ∧
        rd (readReport c d stack) c.ETP_REPORT_ID_OFFSET ≠ c.ETP_TP_REPORT_ID)) :
    handleHostNotify c d now stack = afterRead c d stack ∧
    (handleHostNotify c d now stack).events = d.events ∧
    (handleHostNotify c d now stack).transducers = d.transducers ∧
    (handleHostNotify c d now stack).trackpointScrolling = d.trackpointScrolling := by
  have key : handleHostNotify c d now stack = afterRead c d stack := by
    by_cases hread : (getReport c d.device_nub stack).1 = 0
    · rw [handleHostNotify_read c d now stack hread]
      split
      · rfl
      · rw [getReport_error] at hread
        rcases h with h | h | h
        · rw [if_pos h] at hread
          omega
        · by_cases hneg : (d.device_nub.readReply d.device_nub.log c.ETP_SMBUS_PACKET_QUERY).1 < 0
          · rw [if_pos hneg] at hread
            omega
          · rw [if_neg hneg, if_pos h] at hread
            exact absurd hread (by decide)
        · unfold dispatchReport
          rw [if_neg h.1, if_neg h.2]
    · unfold handleHostNotify
      rw [if_pos hread]
      rfl
  rw [key]
  exact ⟨rfl, rfl, rfl, rfl⟩

/-- Witness of C11: a report of three bytes. -/
theorem handleHostNotify_dropped_witness :
    ((driverOn shortReportBus).device_nub.readReply (driverOn shortReportBus).device_nub.log
        refHeader.ETP_SMBUS_PACKET_QUERY).1 ≠ refHeader.ETP_SMBUS_REPORT_LEN ∧
    handleHostNotify refHeader (driverOn shortReportBus) 1000000000 []
      = afterRead refHeader (driverOn shortReportBus) [] ∧
    (handleHostNotify refHeader (driverOn shortReportBus) 1000000000 []).events
      = (driverOn shortReportBus).events ∧
    (handleHostNotify refHeader (driverOn shortReportBus) 1000000000 []).transducers
      = (driverOn shortReportBus).transducers ∧
    (handleHostNotify refHeader (driverOn shortReportBus) 1000000000 []).trackpointScrolling
      = (driverOn shortReportBus).trackpointScrolling :=
  ⟨by decide,
    handleHostNotify_dropped refHeader (driverOn shortReportBus) 1000000000 []
      (Or.inr (Or.inl (by decide)))⟩

/-- Dropped reports evaluated: a short read and an unknown identifier leave no
event, and the bus has seen the one read. -/
theorem dropped_reports_evaluated :
    (handleHostNotify refHeader (driverOn shortReportBus) 1000000000 []).events = [] ∧
    (handleHostNotify refHeader (driverOn shortReportBus) 1000000000 []).device_nub.log
      = [BusOp.readBlockData 0xA8] ∧
    (handleHostNotify refHeader (driverOn (reportBus [0x42])) 1000000000 []).events = [] ∧
    (handleHostNotify refHeader (driverOn (reportBus [0x42])) 1000000000 []).device_nub.log
      = [BusOp.readBlockData 0xA8] := by
  decide

/-! ## Power states -/

/-- C12, as stated, fails for a transition to off while the device is already
marked asleep: no sleep command is sent, the bus sees no operation. -/
theorem power_off_while_asleep_is_silent :
    asleepDriver.awake = false ∧
    (setPowerState refHeader asleepDriver true).awake = false ∧
    (setPowerState refHeader asleepDriver true).device_nub.log = asleepDriver.device_nub.log ∧
    (setPowerState refHeader asleepDriver true).device_nub.log = [] := by
  decide

/-- C12, amended: a transition to off from awake sends the sleep command and
leaves the device marked asleep, whatever the bus answers; a transition to off
while already asleep changes nothing and sends nothing; a transition to on from
asleep runs `tryInitialize` once and leaves the device marked awake, whatever
`tryInitialize` returns; a transition to on while already awake changes nothing
and performs no bus traffic. -/
theorem setPowerState_transitions (c : Header) (d : Driver) :
    (d.awake = true →
      (setPowerState c d true).awake = false ∧
      (setPowerState c d true).device_nub.log
        = d.device_nub.log ++ [BusOp.writeByte c.ETP_SMBUS_SLEEP_CMD]) ∧
    (d.awake = false → setPowerState c d true = d) ∧
    (d.awake = false →
      (setPowerState c d false).awake = true ∧
      (setPowerState c d false).device_nub = (tryInitialize c d.device_nub).2) ∧
    (d.awake = true → setPowerState c d false = d) := by
  refine ⟨?_, ?_, ?_, ?_⟩
  · intro h
    unfold setPowerState
    rw [if_pos rfl, if_pos h]
    exact ⟨rfl, rfl⟩
  · intro h
    unfold setPowerState
    rw [if_pos rfl, if_neg (by rw [h]; exact Bool.noConfusion)]
  · intro h
    unfold setPowerState
    rw [if_neg Bool.noConfusion, if_pos (by rw [h]; rfl)]
    exact ⟨rfl, rfl⟩
  · intro h
    unfold setPowerState
    rw [if_neg Bool.noConfusion, if_neg (by rw [h]; exact Bool.noConfusion)]

/-- Witness of C12 (amended): the started driver goes to sleep on a bus that
fails every write, and wakes up again. -/
theorem setPowerState_transitions_witness :
    (driverOn deafBus).awake = true ∧
    (setPowerState refHeader (driverOn deafBus) true).awake = false ∧
    (setPowerState refHeader (driverOn deafBus) true).device_nub.log
      = (driverOn deafBus).device_nub.log ++ [BusOp.writeByte refHeader.ETP_SMBUS_SLEEP_CMD] ∧
    (setPowerState refHeader (driverOn deafBus) true).awake = false ∧
    (setPowerState refHeader (setPowerState refHeader (driverOn deafBus) true) false).awake = true ∧
    (setPowerState refHeader (setPowerState refHeader (driverOn deafBus) true) false).device_nub
      = (tryInitialize refHeader (setPowerState refHeader (driverOn deafBus) true).device_nub).2 :=
  ⟨rfl,
    ((setPowerState_transitions refHeader (driverOn deafBus)).1 rfl).1,
    ((setPowerState_transitions refHeader (driverOn deafBus)).1 rfl).2,
    rfl,
    ((setPowerState_transitions refHeader
      (setPowerState refHeader (driverOn deafBus) true)).2.2.1 rfl).1,
    ((setPowerState_transitions refHeader
      (setPowerState refHeader (driverOn deafBus) true)).2.2.1 rfl).2⟩

/-- Sleep and wake-up evaluated on a bus that fails every write: the sleep
command is sent once, and the wake-up makes five attempts that each read the
hello packet and fail at the enable command, yet the device is marked awake. -/
theorem power_cycle_evaluated :
    (setPowerState refHeader (driverOn deafBus) true).device_nub.log = [BusOp.writeByte 0x21] ∧
    (attempts refHeader 5 (setPowerState refHeader (driverOn deafBus) true).device_nub).log
      = [BusOp.writeByte 0x21,
         BusOp.readBlockData 7, BusOp.writeByte 0x20, BusOp.readBlockData 7, BusOp.writeByte 0x20,
         BusOp.readBlockData 7, BusOp.writeByte 0x20, BusOp.readBlockData 7, BusOp.writeByte 0x20,
         BusOp.readBlockData 7, BusOp.writeByte 0x20] ∧
    tryInitialize refHeader (setPowerState refHeader (driverOn deafBus) true).device_nub
      = (-5, attempts refHeader 5 (setPowerState refHeader (driverOn deafBus) true).device_nub) ∧
    (setPowerState refHeader (setPowerState refHeader (driverOn deafBus) true) false).awake
      = true := by
  refine ⟨by decide, by decide, ?_, rfl⟩
  exact tryInitializeLoop_failure refHeader 4 5 _ rfl (by decide)

/-! ## The writes of `initialize` -/

/-- A return of 0 needs a hello read of five bytes `0x55`. -/
theorem smbusInitialize_zero_hello (c : Header) (nub : VoodooSMBusDeviceNub) (len : Int)
    (values : List Nat)
    (hreply : nub.readReply nub.log c.ETP_SMBUS_HELLOPACKET_CMD = (len, values))
    (h0 : (smbusInitialize c nub).1 = 0) :
    len = 5 ∧ ∀ k, k < 5 → rd values k = 0x55 := by
  have hr1 : (nub.readBlockData c.ETP_SMBUS_HELLOPACKET_CMD).1.1 = len := by
    simp [VoodooSMBusDeviceNub.readBlockData, hreply]
  have hr2 : (nub.readBlockData c.ETP_SMBUS_HELLOPACKET_CMD).1.2 = values := by
    simp [VoodooSMBusDeviceNub.readBlockData, hreply]
  have hlen5 : ((ETP_SMBUS_HELLOPACKET_LEN : Nat) : Int) = 5 := rfl
  by_cases hne : len ≠ 5
  · exfalso
    have hval : (smbusInitialize c nub).1 = (if len < 0 then len else - EIO) := by
      simp only [smbusInitialize, hr1, hlen5]
      rw [if_pos hne]
    rw [hval] at h0
    by_cases hneg : len < 0
    · rw [if_pos hneg] at h0
      omega
    · rw [if_neg hneg] at h0
      exact absurd h0 (by decide)
  · refine ⟨not_not.1 hne, ?_⟩
    by_cases hm : helloMismatch values = true
    · exfalso
      have hval : (smbusInitialize c nub).1 = - ENXIO := by
        simp only [smbusInitialize, hr1, hr2, hlen5]
        rw [if_neg hne, if_pos hm]
      rw [hval] at h0
      exact absurd h0 (by decide)
    · intro k hk
      by_contra hk2
      exact hm ((helloMismatch_iff values).2 ⟨k, hk, hk2⟩)

/-- C13: with `(len, values)` the hello read, `e1` the status the bus gives the
enable write issued right after it, and `e2` the status it gives the mode-set
block `{0x00, 0x07, 0x00, ETP_ENABLE_ABS}` (the mode as a `u8`) issued after
that: when the hello packet matches, a nonzero `e1` is returned and the enable
command is the only write; when `e1` is 0 the mode-set block is written after
the enable command and `e2` is returned; and `initialize` returns 0 if and only
if the hello packet matched and both writes returned 0. -/
theorem smbusInitialize_writes (c : Header) (nub : VoodooSMBusDeviceNub) (len : Int)
    (values : List Nat) (e1 e2 : Int)
    (hreply : nub.readReply nub.log c.ETP_SMBUS_HELLOPACKET_CMD = (len, values))
    (he1 : nub.writeByteReply (nub.log ++ [BusOp.readBlockData c.ETP_SMBUS_HELLOPACKET_CMD])
      c.ETP_SMBUS_ENABLE_TP = e1)
    (he2 : nub.writeBlockReply
      (nub.log ++ [BusOp.readBlockData c.ETP_SMBUS_HELLOPACKET_CMD]
        ++ [BusOp.writeByte c.ETP_SMBUS_ENABLE_TP])
      c.ETP_SMBUS_IAP_CMD 4 [0x00, 0x07, 0x00, c.ETP_ENABLE_ABS % 256] = e2) :
    (len = 5 → (∀ k, k < 5 → rd values k = 0x55) →
      (e1 ≠ 0 →
        (smbusInitialize c nub).1 = e1 ∧
        (smbusInitialize c nub).2.log
          = nub.log ++ [BusOp.readBlockData c.ETP_SMBUS_HELLOPACKET_CMD,
              BusOp.writeByte c.ETP_SMBUS_ENABLE_TP]) ∧
      (e1 = 0 →
        (smbusInitialize c nub).1 = e2 ∧
        (smbusInitialize c nub).2.log
          = nub.log ++ [BusOp.readBlockData c.ETP_SMBUS_HELLOPACKET_CMD,
              BusOp.writeByte c.ETP_SMBUS_ENABLE_TP,
              BusOp.writeBlockData c.ETP_SMBUS_IAP_CMD 4
                [0x00, 0x07, 0x00, c.ETP_ENABLE_ABS % 256]])) ∧
    ((smbusInitialize c nub).1 = 0 ↔
      (len = 5 ∧ (∀ k, k < 5 → rd values k = 0x55) ∧ e1 = 0 ∧ e2 = 0)) := by
  have hr1 : (nub.readBlockData c.ETP_SMBUS_HELLOPACKET_CMD).1.1 = len := by
    simp [VoodooSMBusDeviceNub.readBlockData, hreply]
  have hr2 : (nub.readBlockData c.ETP_SMBUS_HELLOPACKET_CMD).1.2 = values := by
    simp [VoodooSMBusDeviceNub.readBlockData, hreply]
  have hlen5 : ((ETP_SMBUS_HELLOPACKET_LEN : Nat) : Int) = 5 := rfl
  have hw1 : ((nub.readBlockData c.ETP_SMBUS_HELLOPACKET_CMD).2.writeByte
      c.ETP_SMBUS_ENABLE_TP).1 = e1 := he1
  have hw2 : (setMode c ((nub.readBlockData c.ETP_SMBUS_HELLOPACKET_CMD).2.writeByte
      c.ETP_SMBUS_ENABLE_TP).2 c.ETP_ENABLE_ABS).1 = e2 := he2
  have hmatch : len = 5 → (∀ k, k < 5 → rd values k = 0x55) →
      smbusInitialize c nub
        = if e1 ≠ 0 then
            (e1, ((nub.readBlockData c.ETP_SMBUS_HELLOPACKET_CMD).2.writeByte
              c.ETP_SMBUS_ENABLE_TP).2)
          else
            (e2, (setMode c ((nub.readBlockData c.ETP_SMBUS_HELLOPACKET_CMD).2.writeByte
              c.ETP_SMBUS_ENABLE_TP).2 c.ETP_ENABLE_ABS).2) := by
    intro hl hh
    have hm : ¬ (helloMismatch values = true) := by
      rw [helloMismatch_iff]
      rintro ⟨k, hk, hne⟩
      exact hne (hh k hk)
    simp only [smbusInitialize, hr1, hr2, hlen5, hw1, hw2]
    rw [if_neg (not_not.2 hl), if_neg hm]
    by_cases h1 : e1 ≠ 0
    · rw [if_pos h1, if_pos h1]
    · rw [if_neg h1, if_neg h1]
      by_cases h2 : e2 ≠ 0
      · rw [if_pos h2]
      · rw [if_neg h2, not_not.1 h2]
  refine ⟨?_, ?_⟩
  · intro hl hh
    constructor
    · intro h1
      rw [hmatch hl hh, if_pos h1]
      refine ⟨rfl, ?_⟩
      simp [VoodooSMBusDeviceNub.readBlockData, VoodooSMBusDeviceNub.writeByte]
    · intro h1
      rw [hmatch hl hh, if_neg (not_not.2 h1)]
      refine ⟨rfl, ?_⟩
      simp [setMode, VoodooSMBusDeviceNub.readBlockData, VoodooSMBusDeviceNub.writeByte,
        VoodooSMBusDeviceNub.writeBlockData]
  · constructor
    · intro h0
      obtain ⟨hl, hh⟩ := smbusInitialize_zero_hello c nub len values hreply h0
      rw [hmatch hl hh] at h0
      refine ⟨hl, hh, ?_⟩
      by_cases h1 : e1 ≠ 0
      · rw [if_pos h1] at h0
        exact absurd h0 h1
      · rw [if_neg h1] at h0
        exact ⟨not_not.1 h1, h0⟩
    · rintro ⟨hl, hh, h1, h2⟩
      rw [hmatch hl hh, if_neg (not_not.2 h1)]
      exact h2

/-- Witness of C13: on a bus that answers the hello read and fails the enable
write with `-5`, `initialize` returns `-5` and writes no mode-set block. -/
theorem smbusInitialize_writes_witness :
    deafBus.readReply deafBus.log refHeader.ETP_SMBUS_HELLOPACKET_CMD
      = (5, [0x55, 0x55, 0x55, 0x55, 0x55]) ∧
    deafBus.writeByteReply
      (deafBus.log ++ [BusOp.readBlockData refHeader.ETP_SMBUS_HELLOPACKET_CMD])
      refHeader.ETP_SMBUS_ENABLE_TP = -5 ∧
    deafBus.writeBlockReply
      (deafBus.log ++ [BusOp.readBlockData refHeader.ETP_SMBUS_HELLOPACKET_CMD]
        ++ [BusOp.writeByte refHeader.ETP_SMBUS_ENABLE_TP])
      refHeader.ETP_SMBUS_IAP_CMD 4 [0x00, 0x07, 0x00, refHeader.ETP_ENABLE_ABS % 256] = -5 ∧
    (∀ k, k < 5 → rd [0x55, 0x55, 0x55, 0x55, 0x55] k = 0x55) ∧
    (smbusInitialize refHeader deafBus).1 = -5 ∧
    (smbusInitialize refHeader deafBus).2.log
      = deafBus.log ++ [BusOp.readBlockData refHeader.ETP_SMBUS_HELLOPACKET_CMD,
          BusOp.writeByte refHeader.ETP_SMBUS_ENABLE_TP] :=
  ⟨rfl, rfl, rfl, by decide,
    ((smbusInitialize_writes refHeader deafBus 5 [0x55, 0x55, 0x55, 0x55, 0x55] (-5) (-5)
      rfl rfl rfl).1 rfl (by decide)).1 (by decide)⟩

/-! ## Resolution -/

set_option maxRecDepth 100000 in
/-- The bytes on which `convertResolution` is zero. -/
theorem convertResolution_zero_iff :
    ∀ val, val < 256 → (convertResolution val = 0 ↔ (175 ≤ val ∧ val ≤ 179)) := by
  decide

/-- C14, as stated, fails: for the byte 177, which is `-79` as a `char`,
`convertResolution` returns `((-79) * 10 + 790) * 10 / 254 = 0`. -/
theorem convertResolution_177_is_zero :
    convertResolution 177 = 0 := by
  decide

/-- C14, amended: `convertResolution` is nonzero for every 8-bit byte outside
175 to 179 (the `char` values `-81` to `-77`) and zero on those;
`setDeviceParameters` passes the byte 1, which gives 31, so `x_res` and `y_res`
are 31 and its divisions never divide by zero. -/
theorem convertResolution_nonzero :
    (∀ val, val < 256 → (convertResolution val = 0 ↔ (175 ≤ val ∧ val ≤ 179))) ∧
    convertResolution 1 = 31 ∧
    (∀ d : Driver, (setDeviceParameters d).data.x_res = 31 ∧
      (setDeviceParameters d).data.y_res = 31 ∧
      (setDeviceParameters d).mt_interface.physical_max_x = 3052 * 10 / 31 ∧
      (setDeviceParameters d).mt_interface.physical_max_y = 1888 * 10 / 31) := by
  refine ⟨convertResolution_zero_iff, by decide, ?_⟩
  intro d
  exact ⟨rfl, rfl, rfl, rfl⟩

/-! ## Scroll state and deltas -/

/-- The flag after a report, for every prior flag and every report. -/
theorem nextScrolling_iff (c : Header) (scrolling : Bool) (report : List Nat) :
    nextScrolling c scrolling report = true ↔
      ((payload c report 0).testBit 2 = true ∧
        (scrolling = true ∨ (tpX c report ≠ 0 ∧ tpY c report ≠ 0))) := by
  cases hb : (payload c report 0).testBit 2 with
  | false =>
    rw [nextScrolling_of_clear c scrolling report hb]
    simp
  | true =>
    rw [nextScrolling_of_set c scrolling report hb]
    simp

/-- C15: the state after `reportTrackpoint` is scrolling if and only if the
middle bit is set and the prior state was scrolling or both decoded deltas are
nonzero. So from idle a report enters scroll mode only with the middle button
held and `x != 0` and `y != 0`; motion on one axis only never enters it; and a
report with the middle button released leaves the state idle. -/
theorem reportTrackpoint_scroll_state (c : Header) (d : Driver) (report : List Nat) :
    ((reportTrackpoint c d report).trackpointScrolling = true ↔
      ((payload c report 0).testBit 2 = true ∧
        (d.trackpointScrolling = true ∨ (tpX c report ≠ 0 ∧ tpY c report ≠ 0)))) ∧
    (d.trackpointScrolling = false →
      ((reportTrackpoint c d report).trackpointScrolling = true ↔
        ((payload c report 0).testBit 2 = true ∧ tpX c report ≠ 0 ∧ tpY c report ≠ 0))) ∧
    (d.trackpointScrolling = false → (tpX c report = 0 ∨ tpY c report = 0) →
      (reportTrackpoint c d report).trackpointScrolling = false) ∧
    ((payload c report 0).testBit 2 = false →
      (reportTrackpoint c d report).trackpointScrolling = false) := by
  have hiff := nextScrolling_iff c d.trackpointScrolling report
  have hdef : (reportTrackpoint c d report).trackpointScrolling
      = nextScrolling c d.trackpointScrolling report := rfl
  refine ⟨?_, ?_, ?_, ?_⟩
  · rw [hdef]
    exact hiff
  · intro hidle
    rw [hdef, hiff, hidle]
    simp
  · intro hidle haxis
    rw [hdef]
    cases hn : nextScrolling c d.trackpointScrolling report with
    | false => rfl
    | true =>
      exfalso
      obtain ⟨_, h2⟩ := hiff.1 hn
      rcases h2 with h2 | ⟨hx, hy⟩
      · rw [hidle] at h2
        exact Bool.noConfusion h2
      · rcases haxis with h | h
        · exact hx h
        · exact hy h
  · intro hclear
    rw [hdef]
    exact nextScrolling_of_clear c _ report hclear

/-- The transition evaluated: from idle, the middle button with motion on both
axes enters scroll mode, motion on one axis does not, and a release after
scrolling returns to idle. -/
theorem scroll_state_evaluated :
    (reportTrackpoint refHeader startDriver scrollReport).trackpointScrolling = true ∧
    tpX refHeader [0, 0, 0x5E, 0x04, 0x80, 0x80, 0x06, 5, 0] = 5 ∧
    tpY refHeader [0, 0, 0x5E, 0x04, 0x80, 0x80, 0x06, 5, 0] = 0 ∧
    (reportTrackpoint refHeader startDriver
      [0, 0, 0x5E, 0x04, 0x80, 0x80, 0x06, 5, 0]).trackpointScrolling = false ∧
    (reportTrackpointAll refHeader startDriver [scrollReport, stillReport]).trackpointScrolling
      = false := by
  decide

theorem payload_lt (c : Header) (report : List Nat) (k : Nat) : payload c report k < 256 := by
  unfold payload rd
  exact Nat.mod_lt _ (by decide)

theorem xor_shift_le (b : Nat) (hb : b < 256) : (b ^^^ 0x80) <<< 1 ≤ 510 := by
  have h : b ^^^ 0x80 < 2 ^ 8 := Nat.xor_lt_two_pow (by simpa using hb) (by decide)
  rw [Nat.shiftLeft_eq]
  omega

/-- C16, as stated, fails: in `farReport` the low nibble of byte 3 is 6 and the
bytes decode to `x = 0 - (0xFF << 1) = -510` and `y = (0xFF << 1) - 0 = 510`,
outside `-256 .. 255`. -/
theorem far_deltas_exceed_nine_bits :
    payload refHeader farReport 3 &&& 0x0F = 0x06 ∧
    tpX refHeader farReport = -510 ∧ tpY refHeader farReport = 510 ∧
    (reportTrackpoint refHeader startDriver farReport).events
      = [Event.updateRelativePointer (-510) 510 0] := by
  decide

/-- C16, amended: for every trackpoint payload whose byte 3 low nibble is 6, the
deltas `x = b4 - ((b1 XOR 0x80) << 1)` and `y = ((b2 XOR 0x80) << 1) - b5` that
`reportTrackpoint` decodes satisfy `-510 <= x <= 255` and `-255 <= y <= 510`. -/
theorem reportTrackpoint_delta_range (c : Header) (report : List Nat)
    (hnib : payload c report 3 &&& 0x0F = 0x06) :
    tpX c report
      = (payload c report 4 : Int) - (((payload c report 1 ^^^ 0x80) <<< 1 : Nat) : Int) ∧
    tpY c report
      = (((payload c report 2 ^^^ 0x80) <<< 1 : Nat) : Int) - (payload c report 5 : Int) ∧
    -510 ≤ tpX c report ∧ tpX c report ≤ 255 ∧
    -255 ≤ tpY c report ∧ tpY c report ≤ 510 := by
  have hm : tpHasMotion c report = true := by simp [tpHasMotion, hnib]
  have hxe : tpX c report
      = (payload c report 4 : Int) - (((payload c report 1 ^^^ 0x80) <<< 1 : Nat) : Int) := by
    simp [tpX, hm]
  have hye : tpY c report
      = (((payload c report 2 ^^^ 0x80) <<< 1 : Nat) : Int) - (payload c report 5 : Int) := by
    simp [tpY, hm]
  have h1 := xor_shift_le (payload c report 1) (payload_lt c report 1)
  have h2 := xor_shift_le (payload c report 2) (payload_lt c report 2)
  have h4 := payload_lt c report 4
  have h5 := payload_lt c report 5
  refine ⟨hxe, hye, ?_, ?_, ?_, ?_⟩ <;> omega

/-- Witness of C16 (amended): the report decoding to `x = -510`, `y = 510`. -/
theorem reportTrackpoint_delta_range_witness :
    payload refHeader farReport 3 &&& 0x0F = 0x06 ∧
    -510 ≤ tpX refHeader farReport ∧ tpX refHeader farReport ≤ 255 ∧
    -255 ≤ tpY refHeader farReport ∧ tpY refHeader farReport ≤ 510 :=
  ⟨by decide, (reportTrackpoint_delta_range refHeader farReport (by decide)).2.2⟩

/-- The bounds of the deltas are attained: `x = 255` and `y = -255` with the
bytes `b1 = b2 = 0x80`, `b4 = b5 = 255`. -/
theorem delta_bounds_attained :
    tpX refHeader [0, 0, 0x5E, 0x00, 0x80, 0x80, 0x06, 255, 255] = 255 ∧
    tpY refHeader [0, 0, 0x5E, 0x00, 0x80, 0x80, 0x06, 255, 255] = -255 := by
  decide

/-! ## Reports without motion -/

set_option maxRecDepth 100000 in
/-- The union of the three button bits of a byte is the byte masked by 7. -/
theorem button_bits_eq_mask :
    ∀ b, b < 256 → (b &&& 0x01) ||| (b &&& 0x02) ||| (b &&& 0x04) = b &&& 0x07 := by
  decide

theorem tpButton_eq_mask (c : Header) (report : List Nat) :
    tpButton c report = payload c report 0 &&& 0x07 :=
  button_bits_eq_mask (payload c report 0) (payload_lt c report 0)

/-- C17: for a trackpoint payload whose byte 3 low nibble is not 6, the motion is
zero: `reportTrackpoint` emits the relative-pointer event `(0, 0, button)` with
`button = payload byte 0 AND 0x07` when the resulting state is idle, and the
scroll event `(0, 0, 0)` when the resulting state is scrolling; and such a report
never moves the state from idle to scrolling. -/
theorem reportTrackpoint_no_motion (c : Header) (d : Driver) (report : List Nat)
    (hnib : payload c report 3 &&& 0x0F ≠ 0x06) :
    tpX c report = 0 ∧ tpY c report = 0 ∧
    ((reportTrackpoint c d report).trackpointScrolling = false →
      (reportTrackpoint c d report).events
        = d.events ++ [Event.updateRelativePointer 0 0 ((payload c report 0 &&& 0x07 : Nat) : Int)]) ∧
    ((reportTrackpoint c d report).trackpointScrolling = true →
      (reportTrackpoint c d report).events = d.events ++ [Event.updateScrollwheel 0 0 0]) ∧
    (d.trackpointScrolling = false →
      (reportTrackpoint c d report).trackpointScrolling = false) := by
  have hm : tpHasMotion c report = false := by simp [tpHasMotion, hnib]
  have hx : tpX c report = 0 := by simp [tpX, hm]
  have hy : tpY c report = 0 := by simp [tpY, hm]
  have hdef : (reportTrackpoint c d report).trackpointScrolling
      = nextScrolling c d.trackpointScrolling report := rfl
  have hev : (reportTrackpoint c d report).events
      = d.events ++ [tpEvent c (nextScrolling c d.trackpointScrolling report) report] := rfl
  refine ⟨hx, hy, ?_, ?_, ?_⟩
  · intro hs
    rw [hdef] at hs
    rw [hev, hs]
    simp only [tpEvent, Bool.false_eq_true, if_false, hx, hy, tpButton_eq_mask]
  · intro hs
    rw [hdef] at hs
    rw [hev, hs]
    simp only [tpEvent, if_true, hx, hy, neg_zero]
  · intro hidle
    rw [hdef]
    cases hn : nextScrolling c d.trackpointScrolling report with
    | false => rfl
    | true =>
      exfalso
      obtain ⟨_, h2⟩ := (nextScrolling_iff c d.trackpointScrolling report).1 hn
      rcases h2 with h2 | ⟨hx2, _⟩
      · rw [hidle] at h2
        exact Bool.noConfusion h2
      · exact hx2 hx

/-- Witness of C17: a report with the left button held and no motion sentinel,
from the idle state. -/
theorem reportTrackpoint_no_motion_witness :
    payload refHeader stillReport 3 &&& 0x0F ≠ 0x06 ∧
    startDriver.trackpointScrolling = false ∧
    (reportTrackpoint refHeader startDriver stillReport).trackpointScrolling = false ∧
    (reportTrackpoint refHeader startDriver stillReport).events
      = startDriver.events ++ [Event.updateRelativePointer 0 0 1] :=
  ⟨by decide, rfl,
    (reportTrackpoint_no_motion refHeader startDriver stillReport (by decide)).2.2.2.2 rfl,
    (reportTrackpoint_no_motion refHeader startDriver stillReport (by decide)).2.2.1
      ((reportTrackpoint_no_motion refHeader startDriver stillReport (by decide)).2.2.2.2 rfl)⟩

/-! ## Independence of slots and of unused bytes -/

/-- The step of a slot reads the packet only at the first three bytes of its
record. -/
theorem slotStep_congr (data : elan_tp_data) (mt : MultitouchInterface) (p q : List Nat)
    (tp_info i fd : Nat) (t : Transducer)
    (h0 : rd q fd = rd p fd) (h1 : rd q (fd + 1) = rd p (fd + 1))
    (h2 : rd q (fd + 2) = rd p (fd + 2)) :
    slotStep data mt q tp_info i fd t = slotStep data mt p tp_info i fd t := by
  have hx : pos_x q fd = pos_x p fd := by simp only [pos_x, h0, h1]
  have hy : pos_y q fd = pos_y p fd := by simp only [pos_y, h0, h2]
  simp only [slotStep, reportContact, overMax, hx, hy]

/-- The step of an invalid slot does not read the packet. -/
theorem slotStep_invalid_congr (data : elan_tp_data) (mt : MultitouchInterface) (p q : List Nat)
    (tp_info i fd fd1 : Nat) (t : Transducer) (hv : contactValid tp_info i = false) :
    slotStep data mt q tp_info i fd1 t = slotStep data mt p tp_info i fd t := by
  rw [slotStep_invalid _ _ _ _ _ _ _ hv, slotStep_invalid _ _ _ _ _ _ _ hv]

/-- A valid slot has its own record: the rank of a valid slot differs from the
rank of every other slot above it. -/
theorem validBelow_lt (tp_info : Nat) {i j : Nat} (hij : i < j)
    (hv : contactValid tp_info i = true) : validBelow tp_info i < validBelow tp_info j := by
  have hs := validBelow_succ tp_info i
  rw [hv, if_pos rfl] at hs
  have hm := validBelow_mono tp_info (show i + 1 ≤ j by omega)
  omega

/-- The loop leaves the transducers beyond `ETP_MAX_FINGERS` alone. -/
theorem reportAbsolute_slot_beyond (c : Header) (d : Driver) (packet : List Nat) (j : Nat)
    (hj : ¬ j < ETP_MAX_FINGERS) :
    (reportAbsolute c d packet).transducers[j]? = d.transducers[j]? := by
  have h := (reportAbsoluteLoop_spec d.data d.mt_interface packet (touchInfo c packet)
    ETP_MAX_FINGERS 0 c.ETP_FINGER_DATA_OFFSET 0 d.transducers).2 j
  have hr : ¬ (0 ≤ j ∧ j < 0 + ETP_MAX_FINGERS) := by omega
  rw [if_neg hr] at h
  exact h

/-- Two reports with the same touch-info byte that agree on the first three
bytes of the record of every valid slot leave the same transducers and emit the
same event. -/
theorem reportAbsolute_congr (c : Header) (d : Driver) (p q : List Nat)
    (htp : touchInfo c q = touchInfo c p)
    (hrec : ∀ j, j < ETP_MAX_FINGERS → contactValid (touchInfo c p) j = true →
      ∀ m, m < 3 → rd q (recordAt c (validBelow (touchInfo c p) j) + m)
        = rd p (recordAt c (validBelow (touchInfo c p) j) + m)) :
    (reportAbsolute c d q).transducers = (reportAbsolute c d p).transducers ∧
    (reportAbsolute c d q).events = (reportAbsolute c d p).events := by
  have hts : (reportAbsolute c d q).transducers = (reportAbsolute c d p).transducers := by
    apply List.ext_getElem?
    intro j
    by_cases hj : j < ETP_MAX_FINGERS
    · rw [reportAbsolute_slot c d q j hj, reportAbsolute_slot c d p j hj, htp]
      cases ht : d.transducers[j]? with
      | none => rfl
      | some t =>
        simp only [Option.map_some', Option.some.injEq]
        cases hv : contactValid (touchInfo c p) j with
        | false => exact slotStep_invalid_congr _ _ _ _ _ _ _ _ t hv
        | true =>
          exact slotStep_congr _ _ _ _ _ _ _ t (hrec j hj hv 0 (by decide))
            (hrec j hj hv 1 (by decide)) (hrec j hj hv 2 (by decide))
    · rw [reportAbsolute_slot_beyond c d q j hj, reportAbsolute_slot_beyond c d p j hj]
  refine ⟨hts, ?_⟩
  rw [reportAbsolute_events c d q, reportAbsolute_events c d p, hts, htp]

/-- C18: in an absolute report `p` where the valid slot `r` decodes out of
range, slot `r` keeps its position and every other slot `j` ends in exactly the state it has after any report
`q` that differs from `p` only in the record of slot `r` (so also after one
whose record for `r` is in range). A valid slot above `r` reads a record after
the rejected one, a valid slot in range stores the coordinates of its own
record, and an invalid slot holds its prior position with tip switch 0. -/
theorem reportAbsolute_rejection_frame (c : Header) (d : Driver) (p q : List Nat) (r : Nat)
    (hlen : d.transducers.length = ETP_MAX_FINGERS) (hr : r < ETP_MAX_FINGERS)
    (hbit : (touchInfo c p).testBit (3 + r) = true)
    (hover : pos_x p (recordAt c (validBelow (touchInfo c p) r)) > d.data.max_x ∨
      pos_y p (recordAt c (validBelow (touchInfo c p) r)) > d.data.max_y)
    (htp : touchInfo c q = touchInfo c p)
    (hsame : ∀ k, k ≠ validBelow (touchInfo c p) r → ∀ m, m < ETP_FINGER_DATA_LEN →
      rd q (recordAt c k + m) = rd p (recordAt c k + m)) :
    (∃ t t1, d.transducers[r]? = some t ∧ (reportAbsolute c d p).transducers[r]? = some t1 ∧
      t1.x = t.x ∧ t1.y = t.y) ∧
    ∀ j, j < ETP_MAX_FINGERS → j ≠ r →
      (reportAbsolute c d p).transducers[j]? = (reportAbsolute c d q).transducers[j]? ∧
      (r < j → (touchInfo c p).testBit (3 + j) = true →
        validBelow (touchInfo c p) r < validBelow (touchInfo c p) j) ∧
      ∃ t t1, d.transducers[j]? = some t ∧ (reportAbsolute c d p).transducers[j]? = some t1 ∧
        ((touchInfo c p).testBit (3 + j) = true →
          pos_x p (recordAt c (validBelow (touchInfo c p) j)) ≤ d.data.max_x →
          pos_y p (recordAt c (validBelow (touchInfo c p) j)) ≤ d.data.max_y →
          t1.x.value = pos_x p (recordAt c (validBelow (touchInfo c p) j)) ∧
          t1.y.value = sub32 d.mt_interface.logical_max_y
            (pos_y p (recordAt c (validBelow (touchInfo c p) j))) ∧
          t1.tip_switch.value = 1) ∧
        ((touchInfo c p).testBit (3 + j) = false →
          t1.x = t.x ∧ t1.y = t.y ∧ t1.tip_switch.value = 0) := by
  have hvr : contactValid (touchInfo c p) r = true := by
    rw [contactValid_eq_testBit]
    exact hbit
  constructor
  · obtain ⟨t, ht⟩ := getElem?_of_length hlen hr
    refine ⟨t, slotStep d.data d.mt_interface p (touchInfo c p) r
      (recordAt c (validBelow (touchInfo c p) r)) t, ht, ?_, ?_⟩
    · rw [reportAbsolute_slot c d p r hr, ht, Option.map_some']
    · rw [slotStep_rejected _ _ _ _ _ _ _ hvr (overMax_eq_true hover)]
      exact ⟨rfl, rfl⟩
  intro j hj hjr
  obtain ⟨t, ht⟩ := getElem?_of_length hlen hj
  refine ⟨?_, ?_, t, slotStep d.data d.mt_interface p (touchInfo c p) j
    (recordAt c (validBelow (touchInfo c p) j)) t, ht, ?_, ?_, ?_⟩
  · rw [reportAbsolute_slot c d p j hj, reportAbsolute_slot c d q j hj, htp, ht]
    simp only [Option.map_some', Option.some.injEq]
    cases hv : contactValid (touchInfo c p) j with
    | false => exact slotStep_invalid_congr _ _ _ _ _ _ _ _ t hv
    | true =>
      have hne : validBelow (touchInfo c p) j ≠ validBelow (touchInfo c p) r := by
        rcases Nat.lt_or_gt_of_ne hjr with h | h
        · have := validBelow_lt (touchInfo c p) h hv
          omega
        · have := validBelow_lt (touchInfo c p) h hvr
          omega
      have hb := hsame (validBelow (touchInfo c p) j) hne
      exact (slotStep_congr _ _ _ _ _ _ _ t (hb 0 (by decide)) (hb 1 (by decide))
        (hb 2 (by decide))).symm
  · intro hlt _
    exact validBelow_lt (touchInfo c p) hlt hvr
  · rw [reportAbsolute_slot c d p j hj, ht, Option.map_some']
  · intro hb hx hy
    have hv : contactValid (touchInfo c p) j = true := by
      rw [contactValid_eq_testBit]
      exact hb
    rw [slotStep_stored _ _ _ _ _ _ _ hv (overMax_eq_false hx hy)]
    exact ⟨rfl, rfl, rfl⟩
  · intro hb
    have hv : contactValid (touchInfo c p) j = false := by
      rw [contactValid_eq_testBit]
      exact hb
    rw [slotStep_invalid _ _ _ _ _ _ _ hv]
    exact ⟨rfl, rfl, rfl⟩

/-- Witness of C18: slot 0 of `overSamplePacket` is rejected; slot 2 ends as
after `samplePacket`, where the record of slot 0 is in range. -/
theorem reportAbsolute_rejection_frame_witness :
    startDriver.transducers.length = ETP_MAX_FINGERS ∧ 0 < ETP_MAX_FINGERS ∧
    (touchInfo refHeader overSamplePacket).testBit (3 + 0) = true ∧
    (pos_x overSamplePacket
        (recordAt refHeader (validBelow (touchInfo refHeader overSamplePacket) 0))
        > startDriver.data.max_x ∨
      pos_y overSamplePacket
        (recordAt refHeader (validBelow (touchInfo refHeader overSamplePacket) 0))
        > startDriver.data.max_y) ∧
    touchInfo refHeader samplePacket = touchInfo refHeader overSamplePacket ∧
    (∀ k, k ≠ validBelow (touchInfo refHeader overSamplePacket) 0 →
      ∀ m, m < ETP_FINGER_DATA_LEN →
        rd samplePacket (recordAt refHeader k + m)
          = rd overSamplePacket (recordAt refHeader k + m)) ∧
    (reportAbsolute refHeader startDriver overSamplePacket).transducers[2]?
      = (reportAbsolute refHeader startDriver samplePacket).transducers[2]? :=
  have hsame : ∀ k, k ≠ validBelow (touchInfo refHeader overSamplePacket) 0 →
      ∀ m, m < ETP_FINGER_DATA_LEN →
        rd samplePacket (recordAt refHeader k + m)
          = rd overSamplePacket (recordAt refHeader k + m) := by
    intro k hk m hm
    have hk0 : k ≠ 0 := hk
    have hm5 : m < 5 := hm
    obtain ⟨k1, rfl⟩ : ∃ k1, k = k1 + 1 := ⟨k - 1, by omega⟩
    rcases Nat.lt_or_ge k1 1 with h1 | h1
    · have : k1 = 0 := by omega
      subst this
      interval_cases m <;> decide
    · have hbig : 14 ≤ recordAt refHeader (k1 + 1) + m := by
        show 14 ≤ 4 + 5 * (k1 + 1) + m
        omega
      have hs : ∀ l : List Nat, l.length = 14 → rd l (recordAt refHeader (k1 + 1) + m) = 0 := by
        intro l hl
        unfold rd
        rw [List.getD_eq_default _ _ (by omega)]
      rw [hs samplePacket rfl, hs overSamplePacket rfl]
  ⟨by decide, by decide, by decide, by decide, by decide, hsame,
    ((reportAbsolute_rejection_frame refHeader startDriver overSamplePacket samplePacket 0
      (by decide) (by decide) (by decide) (by decide) (by decide) hsame).2 2 (by decide)
      (by decide)).1⟩

/-- The rejection evaluated: with slot 0 out of range, slot 2 is still decoded
from the second record, `(308, 1888 - 598)`; slot 0 stays at its prior position
`(0, 0)`. -/
theorem rejection_evaluated :
    (reportAbsolute refHeader startDriver overSamplePacket).events.map eventSummary
      = [(2, [(true, 0, 0, 0), (false, 0, 0, 0), (true, 308, 1290, 1),
              (false, 0, 0, 0), (false, 0, 0, 0)])] := by
  decide

/-! ## Touch status -/

theorem message_set_eq (d : Driver) (enable : Bool) :
    (message d (Message.kKeyboardSetTouchStatus enable)).1 = { d with ignoreall := !enable } := by
  show (if enable = d.ignoreall then { d with ignoreall := !enable } else d) = _
  by_cases h : enable = d.ignoreall
  · rw [if_pos h]
  · rw [if_neg h]
    have h2 : d.ignoreall = !enable := by
      cases enable <;> cases hi : d.ignoreall <;> simp_all
    cases d
    simp_all

/-- C19: for every prior `ignoreall` and every `enable`, after the message
`kKeyboardSetTouchStatus` carrying `enable`, `ignoreall` is `NOT enable` and a
following `kKeyboardGetTouchStatus` returns `enable`; sending the set message
twice leaves the state of sending it once; and neither message changes
`keytime`. -/
theorem message_touch_status (d : Driver) (enable : Bool) :
    (message d (Message.kKeyboardSetTouchStatus enable)).1.ignoreall = (!enable) ∧
    (message (message d (Message.kKeyboardSetTouchStatus enable)).1
      Message.kKeyboardGetTouchStatus).2 = some enable ∧
    (message (message d (Message.kKeyboardSetTouchStatus enable)).1
      (Message.kKeyboardSetTouchStatus enable)).1
        = (message d (Message.kKeyboardSetTouchStatus enable)).1 ∧
    (message d (Message.kKeyboardSetTouchStatus enable)).1.keytime = d.keytime ∧
    (message d Message.kKeyboardGetTouchStatus).1 = d := by
  refine ⟨?_, ?_, ?_, ?_, rfl⟩
  · rw [message_set_eq]
  · rw [message_set_eq]
    show some (!(!enable)) = some enable
    rw [Bool.not_not]
  · rw [message_set_eq, message_set_eq]
  · rw [message_set_eq]

/-- The round trip evaluated on the started driver, whose `ignoreall` is false:
disabling sets `ignoreall`, the status reads back as disabled, and enabling
clears it again. -/
theorem touch_status_evaluated :
    (message startDriver (Message.kKeyboardSetTouchStatus false)).1.ignoreall = true ∧
    (message (message startDriver (Message.kKeyboardSetTouchStatus false)).1
      Message.kKeyboardGetTouchStatus).2 = some false ∧
    (message (message startDriver (Message.kKeyboardSetTouchStatus false)).1
      (Message.kKeyboardSetTouchStatus true)).1.ignoreall = false := by
  decide

/-! ## Width and pressure bytes -/

/-- C20: for a valid contact in range, `reportContact` changes only `x`, `y` and
the tip switch (set to 1); the scaled pressure and the areas are not written.
So two absolute reports with the same touch-info byte that agree on the first
three bytes of every finger record (they may differ in the width and pressure
bytes 3 and 4) leave the same slots and emit the same event. -/
theorem reportContact_frame (c : Header) (d : Driver) (p q : List Nat)
    (htp : touchInfo c q = touchInfo c p)
    (hsame : ∀ k m, m < 3 → rd q (recordAt c k + m) = rd p (recordAt c k + m)) :
    (∀ (t : Transducer) (fd : Nat),
      pos_x p fd ≤ d.data.max_x → pos_y p fd ≤ d.data.max_y →
      reportContact d.data t true p fd
        = { t with
            x := { value := pos_x p fd }
            y := { value := sub32 t.logical_max_y (pos_y p fd) }
            tip_switch := { value := 1 } }) ∧
    (reportAbsolute c d q).transducers = (reportAbsolute c d p).transducers ∧
    (reportAbsolute c d q).events = (reportAbsolute c d p).events := by
  refine ⟨?_, reportAbsolute_congr c d p q htp (fun j _ _ m hm => hsame _ m hm)⟩
  intro t fd hx hy
  simp [reportContact, overMax_eq_false hx hy, TimeTrackedValue.update]

/-- Witness of C20: the sample report and the same report with other width and
pressure bytes. -/
theorem reportContact_frame_witness :
    touchInfo refHeader heavySamplePacket = touchInfo refHeader samplePacket ∧
    (∀ k m, m < 3 → rd heavySamplePacket (recordAt refHeader k + m)
      = rd samplePacket (recordAt refHeader k + m)) ∧
    (reportAbsolute refHeader startDriver heavySamplePacket).transducers
      = (reportAbsolute refHeader startDriver samplePacket).transducers ∧
    (reportAbsolute refHeader startDriver heavySamplePacket).events
      = (reportAbsolute refHeader startDriver samplePacket).events :=
  have hsame : ∀ k m, m < 3 → rd heavySamplePacket (recordAt refHeader k + m)
      = rd samplePacket (recordAt refHeader k + m) := by
    intro k m hm
    rcases Nat.lt_or_ge k 2 with h2 | h2
    · interval_cases k <;> interval_cases m <;> decide
    · have hbig : 14 ≤ recordAt refHeader k + m := by
        show 14 ≤ 4 + 5 * k + m
        omega
      have hs : ∀ l : List Nat, l.length = 14 → rd l (recordAt refHeader k + m) = 0 := by
        intro l hl
        unfold rd
        rw [List.getD_eq_default _ _ (by omega)]
      rw [hs samplePacket rfl, hs heavySamplePacket rfl]
  ⟨by decide, hsame, (reportContact_frame refHeader startDriver samplePacket heavySamplePacket
    (by decide) hsame).2⟩

/-- The two reports evaluated: they differ in bytes 3 and 4 of both records and
give the same event. -/
theorem width_pressure_evaluated :
    heavySamplePacket ≠ samplePacket ∧
    (reportAbsolute refHeader startDriver heavySamplePacket).events
      = (reportAbsolute refHeader startDriver samplePacket).events := by
  decide

end ELAN

